import Mathlib

/-!
# A cluster-API walkthrough script (`main.go`)

`main` is one linear control flow against an external cluster: connect, list
namespaces, create a namespace, create a pod, list pods by label, sleep, delete
the pod, wire an informer over secrets, list the informer's cache, block.

The embedding is by explicit state passing.  The cluster and the client library
are an oracle (`Env`) that fixes the answer of every call that can fail; `main`
maps an oracle to the run it produces: the sequence of observable events (lines
written to standard output, the log line, the calls with their error results,
the operations on the stop channel) and the way the run ends.
-/

namespace K8sDemo

/-! ## Resource payloads (the fields the script shapes or reads) -/

/-- Fields `Kind` and `APIVersion` of `metav1.TypeMeta`. -/
structure TypeMeta where
  Kind : String
  APIVersion : String
  deriving DecidableEq, Repr

/-- Fields `Name` and `Namespace` of `metav1.ObjectMeta`. -/
structure ObjectMeta where
  Name : String
  Namespace : String
  deriving DecidableEq, Repr

/-- Payload `corev1.Namespace`. -/
structure Namespace where
  ObjectMeta : ObjectMeta
  TypeMeta : TypeMeta
  deriving DecidableEq, Repr

/-- Payload `corev1.Container`. -/
structure Container where
  Name : String
  Image : String
  Command : List String
  Args : List String
  deriving DecidableEq, Repr

/-- Payload `corev1.PodSpec`. -/
structure PodSpec where
  Containers : List Container
  deriving DecidableEq, Repr

/-- Payload `corev1.Pod`. -/
structure Pod where
  TypeMeta : TypeMeta
  ObjectMeta : ObjectMeta
  Spec : PodSpec
  deriving DecidableEq, Repr

/-- Payload `corev1.Secret`. -/
structure Secret where
  ObjectMeta : ObjectMeta
  deriving DecidableEq, Repr

/-- An error value returned by the client library: the API status reason and
the message. -/
structure Err where
  reason : String
  message : String
  deriving DecidableEq, Repr

/-- The status reason of a create that hits an existing object
(`metav1.StatusReasonAlreadyExists`). -/
def Err.isAlreadyExists (err : Err) : Bool :=
  err.reason == "AlreadyExists"

/-! ## Calls, events, runs -/

/-- The calls `main` makes, with the arguments it passes. -/
inductive Action where
  /-- Line 22, `clientcmd.BuildConfigFromFlags(masterUrl, kubeconfigPath)`. -/
  | buildConfig (masterUrl kubeconfigPath : String)
  /-- Line 27, `kubernetes.NewForConfig`. -/
  | newForConfig
  /-- Line 33, `Namespaces().List`. -/
  | listNamespaces
  /-- Line 55, `Namespaces().Create`. -/
  | createNamespace (ns : Namespace)
  /-- Line 81, `Pods(ns).Create(pod)`. -/
  | createPod (ns : String) (pod : Pod)
  /-- Line 88, `Pods(ns).List` with a label selector. -/
  | listPods (ns : String) (selector : String)
  /-- Line 98, `time.Sleep(d)`, `d` in nanoseconds. -/
  | sleep (d : Int)
  /-- Line 101, `Pods(ns).Delete(name)`. -/
  | deletePod (ns : String) (name : String)
  /-- Line 106, `informers.NewSharedInformerFactory(clientSet, resync)`. -/
  | newSharedInformerFactory (resync : Int)
  /-- Line 109, `informerFactory.Core().V1().Secrets()`. -/
  | secretsInformer
  /-- Line 111, `make(chan struct{})`. -/
  | makeStopCh
  /-- Line 112, `defer close(stopCh)`. -/
  | deferCloseStopCh
  /-- Line 113, `go informerFactory.Start(stopCh)`. -/
  | goStart
  /-- Line 115, `secretInformer.Informer().AddEventHandler`. -/
  | addEventHandler
  /-- Line 128, `secretInformer.Lister().List(labels.Everything())`. -/
  | listSecrets
  /-- Line 137, the receive on the stop channel. -/
  | recvStopCh
  /-- The deferred `close(stopCh)` when it runs. -/
  | closeStopCh
  deriving DecidableEq, Repr

/-- What a run shows, in order. -/
inductive Event where
  /-- Bytes written to standard output by one `fmt.Println` or `fmt.Printf`. -/
  | print (s : String)
  /-- The error handed to `log.Default().Print`. -/
  | log (err : Err)
  /-- A call, with the error it returned (`none`: it returned no error, or has
  no error result). -/
  | call (a : Action) (err : Option Err)
  deriving DecidableEq, Repr

/-- How a run of `main` ends. -/
inductive Outcome where
  /-- The function `main` returned. -/
  | returned
  /-- A `panic(err)` ended the process. -/
  | panicked (err : Err)
  /-- The goroutine waits in the receive of line 137. -/
  | blocked
  deriving DecidableEq, Repr

/-- A run: its events and its end. -/
structure Run where
  trace : List Event
  outcome : Outcome
  deriving DecidableEq, Repr

/-- Put events in front of a run. -/
def Run.after (evs : List Event) (r : Run) : Run :=
  ⟨evs ++ r.trace, r.outcome⟩

/-- The answers of the cluster and the client library to the calls of `main`
that return an error value.  The `i`-th pod list of the loop (counted from 0)
for namespace `ns` is answered by `listPods i ns`.  `AddEventHandler` has an
error result in the client library from version 0.26 on and none before, where
its answer is always `none`. -/
structure Env where
  buildConfig : Option Err
  newForConfig : Option Err
  listNamespaces : Except Err (List Namespace)
  createNamespace : Option Err
  createPod : Option Err
  listPods : Nat → String → Except Err (List Pod)
  deletePod : Option Err
  addEventHandler : Option Err
  listSecrets : Except Err (List Secret)

/-! ## The script -/

/-- Line 43. -/
def nsName : String := "conrad-aerospike"

/-- Lines 44-52. -/
def newNs : Namespace :=
  { ObjectMeta := { Name := nsName, Namespace := "" },
    TypeMeta := { Kind := "Namespace", APIVersion := "v1" } }

/-- Lines 61-80. -/
def helloworldPod : Pod :=
  { TypeMeta := { Kind := "Pod", APIVersion := "v1" },
    ObjectMeta := { Name := "hello-world", Namespace := nsName },
    Spec := { Containers := [
      { Name := "hello-world",
        Image := "docker.io/busybox:latest",
        Command := ["bin/sh"],
        Args := ["-c", "while true; do echo hello world! `date`; sleep 10; done"] }] } }

/-- Line 88, the label selector of the list options. -/
def labelSelector : String := "k8s-app=kube-dns"

/-- Wrap a value to a signed 64-bit integer (`int64`, the type under
`time.Duration`). -/
def toInt64 (n : Int) : Int :=
  (n + 2 ^ 63) % 2 ^ 64 - 2 ^ 63

/-- Line 98, `time.Duration(30000000000)`. -/
def sleepDuration : Int := toInt64 30000000000

/-- Line 92, the bytes of `fmt.Printf("-> %s/%s\n", ns.Name, pod.Name)`. -/
def podLine (ns : String) (pod : Pod) : String :=
  "-> " ++ ns ++ "/" ++ pod.ObjectMeta.Name ++ "\n"

/-- Line 134, the bytes of `fmt.Printf("%s/%s secret\n", ...)`. -/
def secretLine (s : Secret) : String :=
  s.ObjectMeta.Namespace ++ "/" ++ s.ObjectMeta.Name ++ " secret\n"

/-- Lines 105-138: the informer wiring, the list from the informer's cache and
the final receive.  Line 115 is a call statement: the results of
`AddEventHandler` are dropped.  The `defer` of line 112 is pending from there
on, so the panic of line 130 runs `close(stopCh)` on its way out. -/
def informerStage (e : Env) : Run :=
  Run.after
    [ .print "7. extra credit - show how a client-go informer works\n",
      .call (.newSharedInformerFactory 0) none,
      .print "using an informer for v1/secrets\n",
      .call .secretsInformer none,
      .call .makeStopCh none,
      .call .deferCloseStopCh none,
      .call .goStart none,
      .call .addEventHandler e.addEventHandler,
      .print "using an informer, listing all secrets from indexer\n" ]
    (match e.listSecrets with
     | .error err => ⟨[.call .listSecrets (some err), .call .closeStopCh none], .panicked err⟩
     | .ok secrets =>
       ⟨.call .listSecrets none :: secrets.map (fun s => .print (secretLine s))
          ++ [.call .recvStopCh none], .blocked⟩)

/-- Lines 97-101: the sleep and the pod delete, whose results are dropped. -/
def sleepDeleteStage (e : Env) : Run :=
  Run.after
    [ .print "sleeping for 30 seconds\n",
      .call (.sleep sleepDuration) none,
      .print "6. delete the hello-world pod created from above\n",
      .call (.deletePod nsName helloworldPod.ObjectMeta.Name) e.deletePod ]
    (informerStage e)

/-- Lines 87-95: the loop over the namespaces of the listing; `i` counts the
iterations done.  The result is the events of the loop and the error that
ended it, if one did. -/
def podListLoop (e : Env) : Nat → List Namespace → List Event × Option Err
  | _, [] => ([], none)
  | i, ns :: rest =>
    match e.listPods i ns.ObjectMeta.Name with
    | .error err => ([.call (.listPods ns.ObjectMeta.Name labelSelector) (some err)], some err)
    | .ok pods =>
      let r := podListLoop e (i + 1) rest
      (.call (.listPods ns.ObjectMeta.Name labelSelector) none
          :: pods.map (fun pod => .print (podLine ns.ObjectMeta.Name pod)) ++ r.1, r.2)

/-- Lines 85-95, then the rest. -/
def podListStage (e : Env) (namespaces : List Namespace) : Run :=
  Run.after
    [ .print "5. print out pod names and the namespace they are in for any pods that have a label of 'k8s-app=kube-dns'\n",
      .print "formatting as namespace/pod-name\n" ]
    (match podListLoop e 0 namespaces with
     | (evs, some err) => ⟨evs, .panicked err⟩
     | (evs, none) => Run.after evs (sleepDeleteStage e))

/-- Lines 60-83, then the rest. -/
def podCreateStage (e : Env) (namespaces : List Namespace) : Run :=
  Run.after
    [ .print ("4. Creating a pod running a hello-world container in the '" ++ nsName ++ "' namespace\n") ]
    (match e.createPod with
     | some err => ⟨[.call (.createPod nsName helloworldPod) (some err)], .panicked err⟩
     | none => Run.after [.call (.createPod nsName helloworldPod) none] (podListStage e namespaces))

/-- Lines 54-58, then the rest: an error of the create is handed to the logger
and the script goes on. -/
def namespaceCreateStage (e : Env) (namespaces : List Namespace) : Run :=
  Run.after
    [ .print ("3. creating a namespace called '" ++ nsName ++ "'\n") ]
    (match e.createNamespace with
     | some err =>
       Run.after [.call (.createNamespace newNs) (some err), .log err] (podCreateStage e namespaces)
     | none => Run.after [.call (.createNamespace newNs) none] (podCreateStage e namespaces))

/-- The function `main`, lines 18-138. -/
def main (e : Env) : Run :=
  Run.after [ .print "1. Connecting to k8s cluster\n" ]
    (match e.buildConfig with
     | some err => ⟨[.call (.buildConfig "" "/Users/conradhanson/.kube/config2") (some err)], .panicked err⟩
     | none =>
       Run.after [.call (.buildConfig "" "/Users/conradhanson/.kube/config2") none]
       (match e.newForConfig with
        | some err => ⟨[.call .newForConfig (some err)], .panicked err⟩
        | none =>
          Run.after [.call .newForConfig none]
          (match e.listNamespaces with
           | .error err => ⟨[.call .listNamespaces (some err)], .panicked err⟩
           | .ok namespaces =>
             Run.after
               (.call .listNamespaces none :: .print "2. Current Namespaces\n"
                  :: namespaces.map (fun ns => .print (ns.ObjectMeta.Name ++ "\n")))
               (namespaceCreateStage e namespaces))))

/-! ## Reading a run -/

/-- The calls that reach outside the process or hand control to another
party (cluster, file system, clock, scheduler); building the informer objects
and the bookkeeping of the stop channel are local. -/
def Action.external : Action → Bool
  | .newSharedInformerFactory _ => false
  | .secretsInformer => false
  | .makeStopCh => false
  | .deferCloseStopCh => false
  | .closeStopCh => false
  | _ => true

/-- The calls whose error `main` answers with `panic(err)`: lines 23, 28, 34,
81, 88 and 129. -/
def Action.failFast : Action → Bool
  | .buildConfig _ _ => true
  | .newForConfig => true
  | .listNamespaces => true
  | .createPod _ _ => true
  | .listPods _ _ => true
  | .listSecrets => true
  | _ => false

/-- The event is a call that returned an error. -/
def Event.failed : Event → Bool
  | .call _ (some _) => true
  | _ => false

/-- The calls of a trace, in order, without their results. -/
def actions (tr : List Event) : List Action :=
  tr.filterMap (fun ev => match ev with
    | .call a _ => some a
    | _ => none)

/-- The external calls of a trace, in order. -/
def externalActions (tr : List Event) : List Action :=
  (actions tr).filter Action.external

/-- The bytes written to standard output, in order. -/
def printed (tr : List Event) : List String :=
  tr.filterMap (fun ev => match ev with
    | .print s => some s
    | _ => none)

/-- The run goes on after the error `err` of call `a`: a later external call
follows it. -/
def Run.ignores (r : Run) (a : Action) (err : Err) : Prop :=
  ∃ pre post next res, r.trace = pre ++ .call a (some err) :: post ∧
    Event.call next res ∈ post ∧ next.external = true

/-- The loop of lines 87-95 as a run, given the run `k` of what follows it. -/
def loopRun (e : Env) (k : Run) (i : Nat) (namespaces : List Namespace) : Run :=
  match podListLoop e i namespaces with
  | (evs, some err) => ⟨evs, .panicked err⟩
  | (evs, none) => Run.after evs k

/-- The deferred close of the stop channel, which runs only on the way out of
`main`. -/
def Action.isDeferredClose : Action → Bool
  | .closeStopCh => true
  | _ => false

/-- The calls of a trace that `main` makes in its body (all but the deferred
close), in order. -/
def bodyActions (tr : List Event) : List Action :=
  (actions tr).filter (fun a => !a.isDeferredClose)

/-- The event is a failed call that `main` answers with a panic. -/
def Event.fatal : Event → Bool
  | .call a (some _) => a.failFast
  | _ => false

/-- Lines 105-138 without a failure, call by call. -/
def informerPath : List Action :=
  [.newSharedInformerFactory 0, .secretsInformer, .makeStopCh, .deferCloseStopCh, .goStart,
   .addEventHandler, .listSecrets, .recvStopCh]

/-- Lines 97-138 without a failure, call by call. -/
def sleepDeletePath : List Action :=
  .sleep sleepDuration :: .deletePod nsName helloworldPod.ObjectMeta.Name :: informerPath

/-- Lines 85-138 without a failure, call by call. -/
def podListPath (namespaces : List Namespace) : List Action :=
  namespaces.map (fun ns => .listPods ns.ObjectMeta.Name labelSelector) ++ sleepDeletePath

/-- Lines 60-138 without a failure, call by call. -/
def podCreatePath (namespaces : List Namespace) : List Action :=
  .createPod nsName helloworldPod :: podListPath namespaces

/-- Lines 54-138 without a failure, call by call. -/
def namespaceCreatePath (namespaces : List Namespace) : List Action :=
  .createNamespace newNs :: podCreatePath namespaces

/-- The calls of `main` when none fails and the listing of line 33 returns
`namespaces`, call by call. -/
def mainPath (namespaces : List Namespace) : List Action :=
  .buildConfig "" "/Users/conradhanson/.kube/config2" :: .newForConfig :: .listNamespaces
    :: namespaceCreatePath namespaces

/-! ## Properties of runs -/

/-- The body calls of a run are an initial part of the path `p`. -/
def Follows (r : Run) (p : List Action) : Prop :=
  bodyActions r.trace <+: p

/-- A run without a failed call makes exactly the calls of `p` and blocks. -/
def Completes (r : Run) (p : List Action) : Prop :=
  (∀ ev ∈ r.trace, ev.failed = false) → actions r.trace = p ∧ r.outcome = .blocked

/-- A fatal failure ends the run with its error, and only the deferred close
comes after it. -/
def FailStop (r : Run) : Prop :=
  (∀ a err, Event.call a (some err) ∈ r.trace → a.failFast = true → r.outcome = .panicked err) ∧
  r.trace.Pairwise (fun ev x => ev.fatal = true → x = .call .closeStopCh none)

/-! ## Sample oracles -/

/-- Sample listing: two namespaces. -/
def sampleNamespaces : List Namespace :=
  [ { ObjectMeta := { Name := "default", Namespace := "" }, TypeMeta := { Kind := "", APIVersion := "" } },
    { ObjectMeta := { Name := "kube-system", Namespace := "" }, TypeMeta := { Kind := "", APIVersion := "" } } ]

/-- Sample pod list answer: the second list of the loop returns one pod, the
others none. -/
def samplePods (i : Nat) (ns : String) : List Pod :=
  if i = 1 then
    [ { TypeMeta := { Kind := "", APIVersion := "" },
        ObjectMeta := { Name := "coredns-1", Namespace := ns },
        Spec := { Containers := [] } } ]
  else []

/-- Sample oracle: every call succeeds. -/
def okEnv : Env :=
  { buildConfig := none,
    newForConfig := none,
    listNamespaces := .ok sampleNamespaces,
    createNamespace := none,
    createPod := none,
    listPods := fun i ns => .ok (samplePods i ns),
    deletePod := none,
    addEventHandler := none,
    listSecrets := .ok [ { ObjectMeta := { Name := "token", Namespace := "default" } } ] }

/-- Sample error values. -/
def timeoutErr : Err := { reason := "Timeout", message := "request timed out" }

/-- Sample oracle: the second pod list of the loop fails. -/
def podListFailsEnv : Env :=
  { okEnv with listPods := fun i ns => if i = 1 then .error timeoutErr else .ok (samplePods i ns) }

/-- The oracle that answers the namespace create without an error and every
other call as `e` does. -/
def Env.withNamespaceCreated (e : Env) : Env :=
  { e with createNamespace := none }

/-- The error `err` of the namespace create is logged and swallowed: the log
line follows the call, and apart from it the run is the run after a successful
create. -/
def Swallowed (e : Env) (err : Err) : Prop :=
  ∃ pre post,
    (main e).trace = pre ++ .call (.createNamespace newNs) (some err) :: .log err :: post ∧
    (main e.withNamespaceCreated).trace = pre ++ .call (.createNamespace newNs) none :: post ∧
    (main e).outcome = (main e.withNamespaceCreated).outcome

/-- Sample error: the namespace create is refused. -/
def forbiddenErr : Err := { reason := "Forbidden", message := "namespaces is forbidden" }

/-- Sample oracle: the namespace create is refused, every other call succeeds. -/
def namespaceForbiddenEnv : Env :=
  { okEnv with createNamespace := some forbiddenErr }

/-- Sample oracle: the pod delete fails, every other call succeeds. -/
def podDeleteFailsEnv : Env :=
  { okEnv with deletePod := some timeoutErr }

/-- Sample oracle: the registration of the event handlers fails, every other
call succeeds. -/
def handlerFailsEnv : Env :=
  { okEnv with addEventHandler := some timeoutErr }

/-- The call is a pod list. -/
def Action.isListPods : Action → Bool
  | .listPods _ _ => true
  | _ => false

/-- The errors handed to the logger, in order. -/
def logged (tr : List Event) : List Err :=
  tr.filterMap (fun ev => match ev with
    | .log err => some err
    | _ => none)

/-- The call is a sleep. -/
def Action.isSleep : Action → Bool
  | .sleep _ => true
  | _ => false

/-- The call is a pod create. -/
def Action.isPodCreate : Action → Bool
  | .createPod _ _ => true
  | _ => false

/-- The call is a pod delete. -/
def Action.isPodDelete : Action → Bool
  | .deletePod _ _ => true
  | _ => false

/-! ## The event handlers (lines 115-125) -/

/-- A value of type `interface{}` handed to a handler, by its dynamic type. -/
inductive Obj where
  /-- Dynamic type `*corev1.Secret`; `none` is the nil pointer of that type. -/
  | secret (p : Option Secret)
  /-- Dynamic type `cache.DeletedFinalStateUnknown`: the key and the last
  known state of a deleted object. -/
  | deletedFinalStateUnknown (key : String) (obj : Obj)
  /-- The nil interface value. -/
  | nil
  /-- A value of any other dynamic type, by the name of the type. -/
  | other (typeName : String)
  deriving DecidableEq, Repr

/-- The run-time panics of a handler. -/
inductive HandlerPanic where
  /-- A failed type assertion `obj.(*corev1.Secret)`. -/
  | typeAssertion
  /-- A field read through a nil pointer. -/
  | nilDereference
  deriving DecidableEq, Repr

/-- The type assertion `obj.(*corev1.Secret)`. -/
def assertSecret : Obj → Except HandlerPanic (Option Secret)
  | .secret p => .ok p
  | _ => .error .typeAssertion

/-- The read of a field of `*p`. -/
def deref : Option Secret → Except HandlerPanic Secret
  | some s => .ok s
  | none => .error .nilDereference

/-- Lines 116-118: the arguments of `fmt.Printf` are evaluated left to right,
then the line is written.  The result is the bytes written, one item per call
of `fmt.Printf`, or the panic. -/
def AddFunc (obj : Obj) : Except HandlerPanic (List String) := do
  let p ← assertSecret obj
  let s ← deref p
  let q ← assertSecret obj
  let t ← deref q
  pure ["add event received for " ++ s.ObjectMeta.Namespace ++ "/" ++ t.ObjectMeta.Name ++ "\n"]

/-- Lines 119-121; `fmtV` is the rendering of a value by the verb `%+v`, which
belongs to package `fmt`. -/
def UpdateFunc (fmtV : Obj → String) (old new : Obj) : Except HandlerPanic (List String) :=
  pure ["update event received, old : " ++ fmtV old ++ ", new " ++ fmtV new ++ "\n"]

/-- Lines 122-124. -/
def DeleteFunc (obj : Obj) : Except HandlerPanic (List String) := do
  let p ← assertSecret obj
  let s ← deref p
  let q ← assertSecret obj
  let t ← deref q
  pure ["delete event received for " ++ s.ObjectMeta.Namespace ++ "/" ++ t.ObjectMeta.Name ++ "\n"]

/-! ## The stop channel (lines 111-138) as a transition system -/

/-- The stop channel: not made yet, open (unbuffered, nothing sent), closed. -/
inductive Chan where
  | absent
  | opened
  | closed
  deriving DecidableEq, Repr

/-- Where the main goroutine stands in lines 111-138. -/
inductive Pc where
  /-- Before `make(chan struct{})`. -/
  | line111
  /-- Before `defer close(stopCh)`. -/
  | line112
  /-- Before `go informerFactory.Start(stopCh)`. -/
  | line113
  /-- Before `AddEventHandler`. -/
  | line115
  /-- Before the lister list. -/
  | line128
  /-- Before the loop that prints the secrets. -/
  | line133
  /-- In the receive `<-stopCh`. -/
  | line137
  /-- After the receive: `main` returns, its deferred calls are pending. -/
  | returning
  /-- After the deferred calls of a return. -/
  | returned
  /-- In `panic(err)` of line 130, the deferred calls are pending. -/
  | panicking
  /-- After the deferred calls of a panic, before the process exits. -/
  | dying
  /-- The process has exited with the panic. -/
  | crashed
  deriving DecidableEq, Repr

/-- The operations of a step. -/
inductive Op where
  | make
  | deferClose
  | spawn
  | addEventHandler
  | listOk
  | listError
  | printSecrets
  | recv
  | close
  | send
  | exit
  /-- The background goroutine runs `informerFactory.Start`: it starts the
  informers that are registered with the factory at that moment. -/
  | backgroundStart
  /-- The background goroutine receives from the stop channel. -/
  | backgroundRecv
  /-- Any other step of the background goroutine. -/
  | backgroundWork
  deriving DecidableEq, Repr

/-- State of the program in lines 111-138: the main goroutine, the stop
channel, whether the deferred close is registered, whether the goroutine of
line 113 runs, whether that goroutine has received the stop signal, whether the
secrets informer is registered with the factory (by `Informer()` in line 115),
whether `Start` has run in the goroutine, and whether it found the secrets
informer registered and started it. -/
structure Sys where
  pc : Pc
  chan : Chan
  deferred : Bool
  spawned : Bool
  stopSeen : Bool
  registered : Bool
  startRan : Bool
  startedInformer : Bool
  deriving DecidableEq, Repr

/-- State on entry to line 111. -/
def Sys.init : Sys :=
  { pc := .line111, chan := .absent, deferred := false, spawned := false, stopSeen := false,
    registered := false, startRan := false, startedInformer := false }

/-- The steps of the main goroutine.  Line 115 obtains the secrets informer
from the factory, which registers it there, and attaches the handlers.  The
receive of line 137 completes only on a closed channel: the channel is
unbuffered and no goroutine has a send on it.  A deferred close runs when `main`
returns or panics. -/
def Sys.mainSteps (s : Sys) : List (Op × Sys) :=
  match s.pc with
  | .line111 => [(.make, { s with pc := .line112, chan := .opened })]
  | .line112 => [(.deferClose, { s with pc := .line113, deferred := true })]
  | .line113 => [(.spawn, { s with pc := .line115, spawned := true })]
  | .line115 => [(.addEventHandler, { s with pc := .line128, registered := true })]
  | .line128 => [(.listOk, { s with pc := .line133 }), (.listError, { s with pc := .panicking })]
  | .line133 => [(.printSecrets, { s with pc := .line137 })]
  | .line137 => if s.chan = .closed then [(.recv, { s with pc := .returning })] else []
  | .returning =>
    if s.deferred then [(.close, { s with pc := .returned, chan := .closed })]
    else [(.exit, { s with pc := .returned })]
  | .returned => []
  | .panicking =>
    if s.deferred then [(.close, { s with pc := .dying, chan := .closed })]
    else [(.exit, { s with pc := .crashed })]
  | .dying => [(.exit, { s with pc := .crashed })]
  | .crashed => []

/-- The steps of the goroutine of line 113 while the process lives; it is
scheduled independently of the main goroutine.  Its call of `Start` runs once
and starts the informers registered at that moment.  The goroutine gets the
channel as an argument of `Start`, whose parameter (client library) is
receive-only: it can receive from the channel, which completes only once the
channel is closed, and it cannot send on it or close it. -/
def Sys.backgroundSteps (s : Sys) : List (Op × Sys) :=
  if s.spawned && s.pc != .returned && s.pc != .crashed then
    (.backgroundWork, s)
      :: (if s.startRan then []
          else [(.backgroundStart, { s with startRan := true, startedInformer := s.registered })])
      ++ (if s.chan = .closed then [(.backgroundRecv, { s with stopSeen := true })] else [])
  else []

/-- The steps of the program, by either goroutine. -/
def Sys.steps (s : Sys) : List (Op × Sys) :=
  s.mainSteps ++ s.backgroundSteps

/-- The states the program can be in. -/
inductive Reachable : Sys → Prop where
  | init : Reachable Sys.init
  | step {s : Sys} {op : Op} {s' : Sys} : Reachable s → (op, s') ∈ s.steps → Reachable s'

/-- The states the program can get to from state `s`. -/
inductive Reaches (s : Sys) : Sys → Prop where
  | refl : Reaches s s
  | step {t : Sys} {op : Op} {u : Sys} : Reaches s t → (op, u) ∈ t.steps → Reaches s u

/-- The main goroutine stands in lines 111-137: it has neither panicked nor
got past the receive. -/
def Sys.onTheWay (s : Sys) : Bool :=
  match s.pc with
  | .line111 => true
  | .line112 => true
  | .line113 => true
  | .line115 => true
  | .line128 => true
  | .line133 => true
  | .line137 => true
  | _ => false

/-- The invariant of lines 111-138. -/
def Sys.inv (s : Sys) : Bool :=
  match s.pc with
  | .line111 => s.chan == .absent && !s.deferred && !s.spawned && !s.stopSeen
  | .line112 => s.chan == .opened && !s.deferred && !s.spawned && !s.stopSeen
  | .line113 => s.chan == .opened && s.deferred && !s.spawned && !s.stopSeen
  | .line115 => s.chan == .opened && s.deferred && s.spawned && !s.stopSeen
  | .line128 => s.chan == .opened && s.deferred && s.spawned && !s.stopSeen
  | .line133 => s.chan == .opened && s.deferred && s.spawned && !s.stopSeen
  | .line137 => s.chan == .opened && s.deferred && s.spawned && !s.stopSeen
  | .panicking => s.chan == .opened && s.deferred && s.spawned && !s.stopSeen
  | .dying => s.chan == .closed && s.deferred && s.spawned
  | .crashed => s.chan == .closed && s.deferred && s.spawned
  | .returning => false
  | .returned => false

/-! # Theorems -/

/-! ## The loop as a run -/

theorem loopRun_nil (e : Env) (k : Run) (i : Nat) : loopRun e k i [] = k := by
  simp [loopRun, podListLoop, Run.after]

theorem loopRun_cons_error (e : Env) (k : Run) (i : Nat) (ns : Namespace)
    (rest : List Namespace) (err : Err) (h : e.listPods i ns.ObjectMeta.Name = .error err) :
    loopRun e k i (ns :: rest) =
      ⟨[.call (.listPods ns.ObjectMeta.Name labelSelector) (some err)], .panicked err⟩ := by
  simp [loopRun, podListLoop, h]

theorem loopRun_cons_ok (e : Env) (k : Run) (i : Nat) (ns : Namespace)
    (rest : List Namespace) (pods : List Pod) (h : e.listPods i ns.ObjectMeta.Name = .ok pods) :
    loopRun e k i (ns :: rest) =
      Run.after (.call (.listPods ns.ObjectMeta.Name labelSelector) none
        :: pods.map (fun pod => .print (podLine ns.ObjectMeta.Name pod)))
        (loopRun e k (i + 1) rest) := by
  unfold loopRun
  simp only [podListLoop, h]
  rcases hr : podListLoop e (i + 1) rest with ⟨evs, _ | err⟩ <;> simp [Run.after]

theorem podListStage_eq (e : Env) (nss : List Namespace) :
    podListStage e nss = Run.after
      [ .print "5. print out pod names and the namespace they are in for any pods that have a label of 'k8s-app=kube-dns'\n",
        .print "formatting as namespace/pod-name\n" ]
      (loopRun e (sleepDeleteStage e) 0 nss) := rfl

/-! ## Projections of traces -/

@[simp] theorem actions_nil : actions [] = [] := rfl

@[simp] theorem actions_append (s t : List Event) : actions (s ++ t) = actions s ++ actions t := by
  simp [actions]

@[simp] theorem actions_print (s : String) (t : List Event) :
    actions (.print s :: t) = actions t := by
  simp [actions]

@[simp] theorem actions_log (err : Err) (t : List Event) :
    actions (.log err :: t) = actions t := by
  simp [actions]

@[simp] theorem actions_call (a : Action) (r : Option Err) (t : List Event) :
    actions (.call a r :: t) = a :: actions t := by
  simp [actions]

@[simp] theorem actions_map_print {α : Type} (f : α → String) (l : List α) :
    actions (l.map (fun x => Event.print (f x))) = [] := by
  induction l with
  | nil => rfl
  | cons x xs ih => simpa using ih

theorem bodyActions_append (s t : List Event) :
    bodyActions (s ++ t) = bodyActions s ++ bodyActions t := by
  simp [bodyActions]

theorem mem_actions {a : Action} {r : Option Err} {tr : List Event}
    (h : Event.call a r ∈ tr) : a ∈ actions tr := by
  unfold actions
  rw [List.mem_filterMap]
  exact ⟨_, h, rfl⟩

/-! ## What each stage does -/

theorem pairwise_of_not_fatal {evs : List Event} (hevs : ∀ ev ∈ evs, ev.fatal = false) :
    evs.Pairwise (fun ev x => ev.fatal = true → x = .call .closeStopCh none) :=
  List.Pairwise.imp_of_mem (fun {a b} ha _ _ hfat => by simp [hevs a ha] at hfat)
    (List.pairwise_of_forall (fun _ _ => trivial) : evs.Pairwise (fun _ _ => True))

theorem Follows.after_events {evs : List Event} {as p : List Action} {r : Run}
    (h : Follows r p) (hevs : bodyActions evs = as) : Follows (Run.after evs r) (as ++ p) := by
  unfold Follows at *
  simp only [Run.after, bodyActions_append, hevs]
  exact (List.prefix_append_right_inj as).mpr h

theorem Completes.after_quiet {evs : List Event} {as p : List Action} {r : Run}
    (h : Completes r p) (hevs : actions evs = as) : Completes (Run.after evs r) (as ++ p) := by
  intro hok
  simp only [Run.after, List.mem_append] at hok
  have := h (fun ev hev => hok ev (Or.inr hev))
  simp [Run.after, hevs, this.1, this.2]

theorem FailStop.after_benign {evs : List Event} {r : Run}
    (h : FailStop r) (hevs : ∀ ev ∈ evs, ev.fatal = false) : FailStop (Run.after evs r) := by
  refine ⟨?_, ?_⟩
  · intro a err hmem hf
    simp only [Run.after, List.mem_append] at hmem ⊢
    rcases hmem with hmem | hmem
    · have := hevs _ hmem
      simp [Event.fatal, hf] at this
    · exact h.1 a err hmem hf
  · simp only [Run.after, List.pairwise_append]
    refine ⟨?_, h.2, ?_⟩
    · exact pairwise_of_not_fatal hevs
    · intro a ha b _ hfat
      simp [hevs a ha] at hfat

theorem informerStage_follows (e : Env) : Follows (informerStage e) informerPath := by
  unfold informerStage Follows
  cases hs : e.listSecrets with
  | error err =>
    simp [Run.after, bodyActions, informerPath, Action.isDeferredClose]
  | ok secrets =>
    simp [Run.after, bodyActions, informerPath, Action.isDeferredClose]

theorem informerStage_completes (e : Env) : Completes (informerStage e) informerPath := by
  unfold informerStage Completes
  cases hs : e.listSecrets with
  | error err =>
    intro h
    have := h (.call .listSecrets (some err)) (by simp [Run.after])
    simp [Event.failed] at this
  | ok secrets =>
    intro _
    simp [Run.after, informerPath]

theorem informerStage_failStop (e : Env) : FailStop (informerStage e) := by
  unfold informerStage
  apply FailStop.after_benign
  · cases hs : e.listSecrets with
    | error err =>
      refine ⟨?_, ?_⟩
      · intro a err' hmem hf
        simp at hmem
        simp [hmem.2]
      · simp
    | ok secrets =>
      refine ⟨?_, ?_⟩
      · intro a err' hmem hf
        simp at hmem
      · apply pairwise_of_not_fatal
        intro ev hev
        simp at hev
        rcases hev with rfl | ⟨s, _, rfl⟩ | rfl <;> rfl
  · intro ev hev
    simp at hev
    rcases hev with rfl | rfl | rfl | rfl | rfl | rfl | rfl | rfl | rfl
    · rfl
    · rfl
    · rfl
    · rfl
    · rfl
    · rfl
    · rfl
    · cases e.addEventHandler <;> rfl
    · rfl

theorem sleepDeleteStage_follows (e : Env) : Follows (sleepDeleteStage e) sleepDeletePath := by
  unfold sleepDeleteStage
  exact (informerStage_follows e).after_events
    (show bodyActions _ = [.sleep sleepDuration, .deletePod nsName helloworldPod.ObjectMeta.Name]
      by simp [bodyActions, Action.isDeferredClose])

theorem sleepDeleteStage_completes (e : Env) :
    Completes (sleepDeleteStage e) sleepDeletePath := by
  unfold sleepDeleteStage
  exact (informerStage_completes e).after_quiet
    (show actions _ = [.sleep sleepDuration, .deletePod nsName helloworldPod.ObjectMeta.Name]
      by simp)

theorem sleepDeleteStage_failStop (e : Env) : FailStop (sleepDeleteStage e) := by
  unfold sleepDeleteStage
  apply (informerStage_failStop e).after_benign
  intro ev hev
  simp at hev
  rcases hev with rfl | rfl | rfl | rfl
  · rfl
  · rfl
  · rfl
  · cases e.deletePod <;> rfl

theorem loopRun_follows (e : Env) {k : Run} {p : List Action} (hk : Follows k p)
    (nss : List Namespace) (i : Nat) :
    Follows (loopRun e k i nss)
      (nss.map (fun ns => .listPods ns.ObjectMeta.Name labelSelector) ++ p) := by
  induction nss generalizing i with
  | nil => simpa [loopRun_nil] using hk
  | cons ns rest ih =>
    cases h : e.listPods i ns.ObjectMeta.Name with
    | error err =>
      rw [loopRun_cons_error e k i ns rest err h]
      simp [Follows, bodyActions, Action.isDeferredClose]
    | ok pods =>
      rw [loopRun_cons_ok e k i ns rest pods h]
      exact (ih (i + 1)).after_events
        (show bodyActions _ = [.listPods ns.ObjectMeta.Name labelSelector]
          by simp [bodyActions, Action.isDeferredClose])

theorem loopRun_completes (e : Env) {k : Run} {p : List Action} (hk : Completes k p)
    (nss : List Namespace) (i : Nat) :
    Completes (loopRun e k i nss)
      (nss.map (fun ns => .listPods ns.ObjectMeta.Name labelSelector) ++ p) := by
  induction nss generalizing i with
  | nil => simpa [loopRun_nil] using hk
  | cons ns rest ih =>
    cases h : e.listPods i ns.ObjectMeta.Name with
    | error err =>
      rw [loopRun_cons_error e k i ns rest err h]
      intro hok
      have := hok (.call (.listPods ns.ObjectMeta.Name labelSelector) (some err)) (by simp)
      simp [Event.failed] at this
    | ok pods =>
      rw [loopRun_cons_ok e k i ns rest pods h]
      exact (ih (i + 1)).after_quiet
        (show actions _ = [.listPods ns.ObjectMeta.Name labelSelector] by simp)

theorem loopRun_failStop (e : Env) {k : Run} (hk : FailStop k)
    (nss : List Namespace) (i : Nat) : FailStop (loopRun e k i nss) := by
  induction nss generalizing i with
  | nil => simpa [loopRun_nil] using hk
  | cons ns rest ih =>
    cases h : e.listPods i ns.ObjectMeta.Name with
    | error err =>
      rw [loopRun_cons_error e k i ns rest err h]
      refine ⟨?_, by simp⟩
      intro a err' hmem _
      simp at hmem
      simp [hmem.2]
    | ok pods =>
      rw [loopRun_cons_ok e k i ns rest pods h]
      apply (ih (i + 1)).after_benign
      intro ev hev
      simp at hev
      rcases hev with rfl | ⟨s, _, rfl⟩ <;> rfl

theorem podListStage_follows (e : Env) (nss : List Namespace) :
    Follows (podListStage e nss) (podListPath nss) := by
  rw [podListStage_eq]
  exact (loopRun_follows e (sleepDeleteStage_follows e) nss 0).after_events
    (show bodyActions _ = [] by simp [bodyActions])

theorem podListStage_completes (e : Env) (nss : List Namespace) :
    Completes (podListStage e nss) (podListPath nss) := by
  rw [podListStage_eq]
  exact (loopRun_completes e (sleepDeleteStage_completes e) nss 0).after_quiet
    (show actions _ = [] by simp)

theorem podListStage_failStop (e : Env) (nss : List Namespace) :
    FailStop (podListStage e nss) := by
  rw [podListStage_eq]
  apply (loopRun_failStop e (sleepDeleteStage_failStop e) nss 0).after_benign
  intro ev hev
  simp at hev
  rcases hev with rfl | rfl <;> rfl

theorem podCreateStage_follows (e : Env) (nss : List Namespace) :
    Follows (podCreateStage e nss) (podCreatePath nss) := by
  unfold podCreateStage
  cases h : e.createPod with
  | some err => simp [Follows, Run.after, bodyActions, Action.isDeferredClose, podCreatePath]
  | none =>
    exact ((podListStage_follows e nss).after_events
      (show bodyActions _ = [.createPod nsName helloworldPod]
        by simp [bodyActions, Action.isDeferredClose])).after_events
      (show bodyActions _ = [] by simp [bodyActions])

theorem podCreateStage_completes (e : Env) (nss : List Namespace) :
    Completes (podCreateStage e nss) (podCreatePath nss) := by
  unfold podCreateStage
  cases h : e.createPod with
  | some err =>
    intro hok
    have := hok (.call (.createPod nsName helloworldPod) (some err)) (by simp [Run.after])
    simp [Event.failed] at this
  | none =>
    exact ((podListStage_completes e nss).after_quiet
      (show actions _ = [.createPod nsName helloworldPod] by simp)).after_quiet
      (show actions _ = [] by simp)

theorem podCreateStage_failStop (e : Env) (nss : List Namespace) :
    FailStop (podCreateStage e nss) := by
  unfold podCreateStage
  apply FailStop.after_benign
  · cases h : e.createPod with
    | some err =>
      refine ⟨?_, by simp⟩
      intro a err' hmem _
      simp at hmem
      simp [hmem.2]
    | none =>
      apply (podListStage_failStop e nss).after_benign
      intro ev hev
      simp at hev
      subst hev
      rfl
  · intro ev hev
    simp at hev
    subst hev
    rfl

theorem namespaceCreateStage_follows (e : Env) (nss : List Namespace) :
    Follows (namespaceCreateStage e nss) (namespaceCreatePath nss) := by
  unfold namespaceCreateStage
  cases h : e.createNamespace with
  | some err =>
    exact ((podCreateStage_follows e nss).after_events
      (show bodyActions _ = [.createNamespace newNs]
        by simp [bodyActions, Action.isDeferredClose])).after_events
      (show bodyActions _ = [] by simp [bodyActions])
  | none =>
    exact ((podCreateStage_follows e nss).after_events
      (show bodyActions _ = [.createNamespace newNs]
        by simp [bodyActions, Action.isDeferredClose])).after_events
      (show bodyActions _ = [] by simp [bodyActions])

theorem namespaceCreateStage_completes (e : Env) (nss : List Namespace) :
    Completes (namespaceCreateStage e nss) (namespaceCreatePath nss) := by
  unfold namespaceCreateStage
  cases h : e.createNamespace with
  | some err =>
    intro hok
    have := hok (.call (.createNamespace newNs) (some err)) (by simp [Run.after])
    simp [Event.failed] at this
  | none =>
    exact ((podCreateStage_completes e nss).after_quiet
      (show actions _ = [.createNamespace newNs] by simp)).after_quiet
      (show actions _ = [] by simp)

theorem namespaceCreateStage_failStop (e : Env) (nss : List Namespace) :
    FailStop (namespaceCreateStage e nss) := by
  unfold namespaceCreateStage
  apply FailStop.after_benign
  · cases h : e.createNamespace with
    | some err =>
      apply (podCreateStage_failStop e nss).after_benign
      intro ev hev
      simp at hev
      rcases hev with rfl | rfl <;> rfl
    | none =>
      apply (podCreateStage_failStop e nss).after_benign
      intro ev hev
      simp at hev
      subst hev
      rfl
  · intro ev hev
    simp at hev
    subst hev
    rfl

theorem main_follows (e : Env) (nss' : List Namespace)
    (hn : ∀ nss, e.listNamespaces = .ok nss → nss' = nss) : Follows (main e) (mainPath nss') := by
  unfold main
  cases hb : e.buildConfig with
  | some err => simp [Follows, Run.after, bodyActions, Action.isDeferredClose, mainPath]
  | none =>
    cases hc : e.newForConfig with
    | some err => simp [Follows, Run.after, bodyActions, Action.isDeferredClose, mainPath]
    | none =>
      cases hl : e.listNamespaces with
      | error err => simp [Follows, Run.after, bodyActions, Action.isDeferredClose, mainPath]
      | ok nss =>
        obtain rfl := hn nss hl
        exact ((((namespaceCreateStage_follows e nss').after_events
          (show bodyActions _ = [.listNamespaces]
            by simp [bodyActions, Action.isDeferredClose])).after_events
          (show bodyActions _ = [.newForConfig]
            by simp [bodyActions, Action.isDeferredClose])).after_events
          (show bodyActions _ = [.buildConfig "" "/Users/conradhanson/.kube/config2"]
            by simp [bodyActions, Action.isDeferredClose])).after_events
          (show bodyActions _ = [] by simp [bodyActions])

theorem main_completes (e : Env) (nss : List Namespace) (hl : e.listNamespaces = .ok nss) :
    Completes (main e) (mainPath nss) := by
  unfold main
  cases hb : e.buildConfig with
  | some err =>
    intro hok
    have := hok (.call (.buildConfig "" "/Users/conradhanson/.kube/config2") (some err))
      (by simp [Run.after])
    simp [Event.failed] at this
  | none =>
    cases hc : e.newForConfig with
    | some err =>
      intro hok
      have := hok (.call .newForConfig (some err)) (by simp [Run.after])
      simp [Event.failed] at this
    | none =>
      simp only [hl]
      exact ((((namespaceCreateStage_completes e nss).after_quiet
        (show actions _ = [.listNamespaces] by simp)).after_quiet
        (show actions _ = [.newForConfig] by simp)).after_quiet
        (show actions _ = [.buildConfig "" "/Users/conradhanson/.kube/config2"] by simp)).after_quiet
        (show actions _ = [] by simp)

theorem main_failStop (e : Env) : FailStop (main e) := by
  unfold main
  apply FailStop.after_benign
  · cases hb : e.buildConfig with
    | some err =>
      refine ⟨?_, by simp⟩
      intro a err' hmem _
      simp at hmem
      simp [hmem.2]
    | none =>
      apply FailStop.after_benign
      · cases hc : e.newForConfig with
        | some err =>
          refine ⟨?_, by simp⟩
          intro a err' hmem _
          simp at hmem
          simp [hmem.2]
        | none =>
          apply FailStop.after_benign
          · cases hl : e.listNamespaces with
            | error err =>
              refine ⟨?_, by simp⟩
              intro a err' hmem _
              simp at hmem
              simp [hmem.2]
            | ok nss =>
              apply (namespaceCreateStage_failStop e nss).after_benign
              intro ev hev
              simp at hev
              rcases hev with rfl | rfl | ⟨s, _, rfl⟩ <;> rfl
          · intro ev hev
            simp at hev
            subst hev
            rfl
      · intro ev hev
        simp at hev
        subst hev
        rfl
  · intro ev hev
    simp at hev
    subst hev
    rfl

theorem filter_external_mainPath (nss : List Namespace) :
    (mainPath nss).filter Action.external =
      [.buildConfig "" "/Users/conradhanson/.kube/config2", .newForConfig, .listNamespaces,
        .createNamespace newNs, .createPod nsName helloworldPod]
      ++ nss.map (fun ns => .listPods ns.ObjectMeta.Name labelSelector)
      ++ [.sleep sleepDuration, .deletePod nsName "hello-world", .goStart, .addEventHandler,
        .listSecrets, .recvStopCh] := by
  have hmap : (nss.map (fun ns => Action.listPods ns.ObjectMeta.Name labelSelector)).filter
      Action.external = nss.map (fun ns => Action.listPods ns.ObjectMeta.Name labelSelector) := by
    rw [List.filter_eq_self]
    intro a ha
    simp at ha
    obtain ⟨ns, _, rfl⟩ := ha
    rfl
  simp [mainPath, namespaceCreatePath, podCreatePath, podListPath, sleepDeletePath, informerPath,
    List.filter_cons, List.filter_append, hmap, Action.external, helloworldPod]

theorem sleepDuration_eq : sleepDuration = 30000000000 := by
  decide

theorem externalActions_eq_filter_body (tr : List Event) :
    externalActions tr = (bodyActions tr).filter Action.external := by
  unfold externalActions bodyActions
  rw [List.filter_filter]
  apply List.filter_congr
  intro a _
  cases a <;> rfl

theorem externalActions_append (s t : List Event) :
    externalActions (s ++ t) = externalActions s ++ externalActions t := by
  simp [externalActions]

theorem failFast_external {a : Action} (h : a.failFast = true) : a.external = true := by
  cases a <;> first | rfl | simp [Action.failFast] at h

/-! ## The claims -/

/-- C1: in every run of `main` in which no call returns an error, with the
listing of line 33 returning `nss`, the external calls are exactly, in this
order: build the config, build the client, list namespaces, create the namespace
object named 'conrad-aerospike', create in namespace 'conrad-aerospike' the pod
object named 'hello-world', one pod list by label for each namespace of `nss`,
sleep, delete pod 'hello-world' of 'conrad-aerospike', start the informer
factory, register the event handlers, list secrets from the informer cache,
receive on the stop channel; and the run ends blocked in that receive. -/
theorem main_success_sequence (e : Env) (nss : List Namespace)
    (hl : e.listNamespaces = .ok nss)
    (hok : ∀ ev ∈ (main e).trace, ev.failed = false) :
    externalActions (main e).trace =
      [.buildConfig "" "/Users/conradhanson/.kube/config2", .newForConfig, .listNamespaces,
        .createNamespace
          { ObjectMeta := { Name := "conrad-aerospike", Namespace := "" },
            TypeMeta := { Kind := "Namespace", APIVersion := "v1" } },
        .createPod "conrad-aerospike"
          { TypeMeta := { Kind := "Pod", APIVersion := "v1" },
            ObjectMeta := { Name := "hello-world", Namespace := "conrad-aerospike" },
            Spec := { Containers := [
              { Name := "hello-world",
                Image := "docker.io/busybox:latest",
                Command := ["bin/sh"],
                Args := ["-c", "while true; do echo hello world! `date`; sleep 10; done"] }] } }]
      ++ nss.map (fun ns => .listPods ns.ObjectMeta.Name "k8s-app=kube-dns")
      ++ [.sleep 30000000000, .deletePod "conrad-aerospike" "hello-world", .goStart,
        .addEventHandler, .listSecrets, .recvStopCh]
    ∧ (main e).outcome = .blocked := by
  obtain ⟨hact, hout⟩ := main_completes e nss hl hok
  refine ⟨?_, hout⟩
  unfold externalActions
  rw [hact, filter_external_mainPath, sleepDuration_eq]
  rfl

/-- Witness of C1 on the sample oracle in which every call succeeds. -/
theorem main_success_sequence_witness :
    externalActions (main okEnv).trace =
      [.buildConfig "" "/Users/conradhanson/.kube/config2", .newForConfig, .listNamespaces,
        .createNamespace
          { ObjectMeta := { Name := "conrad-aerospike", Namespace := "" },
            TypeMeta := { Kind := "Namespace", APIVersion := "v1" } },
        .createPod "conrad-aerospike"
          { TypeMeta := { Kind := "Pod", APIVersion := "v1" },
            ObjectMeta := { Name := "hello-world", Namespace := "conrad-aerospike" },
            Spec := { Containers := [
              { Name := "hello-world",
                Image := "docker.io/busybox:latest",
                Command := ["bin/sh"],
                Args := ["-c", "while true; do echo hello world! `date`; sleep 10; done"] }] } }]
      ++ sampleNamespaces.map (fun ns => .listPods ns.ObjectMeta.Name "k8s-app=kube-dns")
      ++ [.sleep 30000000000, .deletePod "conrad-aerospike" "hello-world", .goStart,
        .addEventHandler, .listSecrets, .recvStopCh]
    ∧ (main okEnv).outcome = .blocked :=
  main_success_sequence okEnv sampleNamespaces rfl (by decide)

/-- C2: when a call among config build, client construction, namespace list,
pod create, a pod list of the loop and the informer lister list returns an
error, `main` panics with that error; after the call the run has no print and no
external call (only the deferred close of the stop channel, when it is pending);
and the external calls up to and including the failed one are an initial part of
the external calls of every run without failure on the same namespace listing. -/
theorem main_fail_fast (e : Env) (pre post : List Event) (a : Action) (err : Err)
    (htr : (main e).trace = pre ++ .call a (some err) :: post)
    (hf : a.failFast = true) :
    (main e).outcome = .panicked err
    ∧ (∀ ev ∈ post, ev = .call .closeStopCh none)
    ∧ externalActions (main e).trace = externalActions pre ++ [a]
    ∧ ∀ (e' : Env) (nss' : List Namespace), e'.listNamespaces = .ok nss' →
        (∀ ev ∈ (main e').trace, ev.failed = false) →
        (∀ nss, e.listNamespaces = .ok nss → nss' = nss) →
        externalActions pre ++ [a] <+: externalActions (main e').trace := by
  obtain ⟨hpanic, hpair⟩ := main_failStop e
  have hpost : ∀ ev ∈ post, ev = .call .closeStopCh none := by
    rw [htr, List.pairwise_append] at hpair
    have h2 := (List.pairwise_cons.mp hpair.2.1).1
    intro ev hev
    exact h2 ev hev (by simp [Event.fatal, hf])
  have hext : externalActions (main e).trace = externalActions pre ++ [a] := by
    have hpost' : externalActions post = [] := by
      unfold externalActions
      rw [List.filter_eq_nil_iff]
      intro b hb
      unfold actions at hb
      rw [List.mem_filterMap] at hb
      obtain ⟨ev, hev, hb⟩ := hb
      rw [hpost ev hev] at hb
      simp at hb
      subst hb
      simp [Action.external]
    rw [htr, externalActions_append, show Event.call a (some err) :: post
      = [Event.call a (some err)] ++ post from rfl, externalActions_append, hpost']
    simp [externalActions, failFast_external hf]
  refine ⟨hpanic a err (by simp [htr]) hf, hpost, hext, ?_⟩
  intro e' nss' hl' hok' hsame
  have h1 := main_follows e nss' hsame
  have h2 := (main_completes e' nss' hl' hok').1
  rw [← hext, externalActions_eq_filter_body]
  unfold externalActions
  rw [h2]
  exact List.IsPrefix.filter _ h1

/-- Witness of C2: the second pod list of the loop fails. -/
theorem main_fail_fast_witness :
    (main podListFailsEnv).outcome = .panicked timeoutErr
    ∧ (∀ ev ∈ ([] : List Event), ev = .call .closeStopCh none)
    ∧ externalActions (main podListFailsEnv).trace =
        externalActions
          [ .print "1. Connecting to k8s cluster\n",
            .call (.buildConfig "" "/Users/conradhanson/.kube/config2") none,
            .call .newForConfig none,
            .call .listNamespaces none,
            .print "2. Current Namespaces\n",
            .print "default\n",
            .print "kube-system\n",
            .print "3. creating a namespace called 'conrad-aerospike'\n",
            .call (.createNamespace newNs) none,
            .print "4. Creating a pod running a hello-world container in the 'conrad-aerospike' namespace\n",
            .call (.createPod "conrad-aerospike" helloworldPod) none,
            .print "5. print out pod names and the namespace they are in for any pods that have a label of 'k8s-app=kube-dns'\n",
            .print "formatting as namespace/pod-name\n",
            .call (.listPods "default" "k8s-app=kube-dns") none ]
        ++ [.listPods "kube-system" "k8s-app=kube-dns"]
    ∧ ∀ (e' : Env) (nss' : List Namespace), e'.listNamespaces = .ok nss' →
        (∀ ev ∈ (main e').trace, ev.failed = false) →
        (∀ nss, podListFailsEnv.listNamespaces = .ok nss → nss' = nss) →
        externalActions
          [ .print "1. Connecting to k8s cluster\n",
            .call (.buildConfig "" "/Users/conradhanson/.kube/config2") none,
            .call .newForConfig none,
            .call .listNamespaces none,
            .print "2. Current Namespaces\n",
            .print "default\n",
            .print "kube-system\n",
            .print "3. creating a namespace called 'conrad-aerospike'\n",
            .call (.createNamespace newNs) none,
            .print "4. Creating a pod running a hello-world container in the 'conrad-aerospike' namespace\n",
            .call (.createPod "conrad-aerospike" helloworldPod) none,
            .print "5. print out pod names and the namespace they are in for any pods that have a label of 'k8s-app=kube-dns'\n",
            .print "formatting as namespace/pod-name\n",
            .call (.listPods "default" "k8s-app=kube-dns") none ]
        ++ [.listPods "kube-system" "k8s-app=kube-dns"] <+: externalActions (main e').trace :=
  main_fail_fast podListFailsEnv _ [] (.listPods "kube-system" "k8s-app=kube-dns") timeoutErr
    (by decide) rfl

theorem mem_path_of_follows {r : Run} {p : List Action} (h : Follows r p) {a : Action}
    {res : Option Err} (hmem : Event.call a res ∈ r.trace) (hc : a.isDeferredClose = false) :
    a ∈ p := by
  apply h.subset
  unfold bodyActions
  rw [List.mem_filter]
  exact ⟨mem_actions hmem, by simp [hc]⟩

theorem podListLoop_congr (e e' : Env) (h : e'.listPods = e.listPods) (nss : List Namespace)
    (i : Nat) : podListLoop e' i nss = podListLoop e i nss := by
  induction nss generalizing i with
  | nil => rfl
  | cons ns rest ih => simp only [podListLoop, h, ih]

theorem podCreateStage_withNamespaceCreated (e : Env) (nss : List Namespace) :
    podCreateStage e.withNamespaceCreated nss = podCreateStage e nss := by
  unfold podCreateStage podListStage
  rw [podListLoop_congr e e.withNamespaceCreated rfl]
  rfl

theorem not_mem_podCreateStage (e : Env) (nss : List Namespace) (ns : Namespace)
    (res : Option Err) : Event.call (.createNamespace ns) res ∉ (podCreateStage e nss).trace := by
  intro hmem
  have := mem_path_of_follows (podCreateStage_follows e nss) hmem rfl
  simp [podCreatePath, podListPath, sleepDeletePath, informerPath] at this

/-- Lines 20-41 when the connection and the listing succeed. -/
theorem main_of_listed (e : Env) (nss : List Namespace) (hb : e.buildConfig = none)
    (hc : e.newForConfig = none) (hl : e.listNamespaces = .ok nss) :
    main e = Run.after
      ([ .print "1. Connecting to k8s cluster\n",
        .call (.buildConfig "" "/Users/conradhanson/.kube/config2") none,
        .call .newForConfig none, .call .listNamespaces none,
        .print "2. Current Namespaces\n" ]
        ++ nss.map (fun ns => .print (ns.ObjectMeta.Name ++ "\n")))
      (namespaceCreateStage e nss) := by
  simp [main, hb, hc, hl, Run.after]

theorem namespaceCreateStage_of_none (e : Env) (nss : List Namespace)
    (hn : e.createNamespace = none) :
    namespaceCreateStage e nss = Run.after
      [ .print ("3. creating a namespace called '" ++ nsName ++ "'\n"),
        .call (.createNamespace newNs) none ]
      (podCreateStage e nss) := by
  simp [namespaceCreateStage, hn, Run.after]

theorem namespaceCreateStage_of_some (e : Env) (nss : List Namespace) (err : Err)
    (hn : e.createNamespace = some err) :
    namespaceCreateStage e nss = Run.after
      [ .print ("3. creating a namespace called '" ++ nsName ++ "'\n"),
        .call (.createNamespace newNs) (some err), .log err ]
      (podCreateStage e nss) := by
  simp [namespaceCreateStage, hn, Run.after]

/-- Shape of a run whose namespace create fails. -/
theorem namespaceCreate_error_shape (e : Env) (err : Err)
    (h : Event.call (.createNamespace newNs) (some err) ∈ (main e).trace) :
    ∃ pre nss,
      (main e).trace = pre ++ .call (.createNamespace newNs) (some err) :: .log err
        :: (podCreateStage e nss).trace ∧
      (main e.withNamespaceCreated).trace = pre ++ .call (.createNamespace newNs) none
        :: (podCreateStage e nss).trace ∧
      (main e).outcome = (main e.withNamespaceCreated).outcome := by
  cases hb : e.buildConfig with
  | some err' => simp [main, hb, Run.after] at h
  | none =>
    cases hc : e.newForConfig with
    | some err' => simp [main, hb, hc, Run.after] at h
    | none =>
      cases hl : e.listNamespaces with
      | error err' => simp [main, hb, hc, hl, Run.after] at h
      | ok nss =>
        have hnot := not_mem_podCreateStage e nss newNs (some err)
        have hw : main e.withNamespaceCreated = _ :=
          main_of_listed e.withNamespaceCreated nss hb hc hl
        rw [namespaceCreateStage_of_none e.withNamespaceCreated nss rfl,
          podCreateStage_withNamespaceCreated] at hw
        rw [main_of_listed e nss hb hc hl] at h ⊢
        cases hn : e.createNamespace with
        | none =>
          rw [namespaceCreateStage_of_none e nss hn] at h
          simp [Run.after, hnot] at h
        | some err' =>
          rw [namespaceCreateStage_of_some e nss err' hn] at h ⊢
          simp [Run.after, hnot] at h
          subst h
          refine ⟨[ .print "1. Connecting to k8s cluster\n",
            .call (.buildConfig "" "/Users/conradhanson/.kube/config2") none,
            .call .newForConfig none, .call .listNamespaces none,
            .print "2. Current Namespaces\n" ]
            ++ nss.map (fun ns => .print (ns.ObjectMeta.Name ++ "\n"))
            ++ [ .print ("3. creating a namespace called '" ++ nsName ++ "'\n") ], nss, ?_, ?_, ?_⟩
          · simp [Run.after]
          · rw [hw]
            simp [Run.after]
          · rw [hw]
            simp [Run.after]

/-- C3, as amended: a failure of the namespace create of any kind is logged
and swallowed: the error is handed to the logger right after the call, and the
rest of the run, from the pod creation on, is exactly the run after a successful
create. -/
theorem namespace_create_error_swallowed (e : Env) (err : Err)
    (h : Event.call (.createNamespace newNs) (some err) ∈ (main e).trace) :
    ∃ pre post,
      (main e).trace = pre ++ .call (.createNamespace newNs) (some err) :: .log err :: post ∧
      (main e.withNamespaceCreated).trace = pre ++ .call (.createNamespace newNs) none :: post ∧
      (main e).outcome = (main e.withNamespaceCreated).outcome := by
  obtain ⟨pre, nss, h1, h2, h3⟩ := namespaceCreate_error_shape e err h
  exact ⟨pre, _, h1, h2, h3⟩

/-- Witness of C3 as amended: a refused namespace create. -/
theorem namespace_create_error_swallowed_witness :
    ∃ pre post,
      (main namespaceForbiddenEnv).trace =
        pre ++ .call (.createNamespace newNs) (some forbiddenErr) :: .log forbiddenErr :: post ∧
      (main namespaceForbiddenEnv.withNamespaceCreated).trace =
        pre ++ .call (.createNamespace newNs) none :: post ∧
      (main namespaceForbiddenEnv).outcome = (main namespaceForbiddenEnv.withNamespaceCreated).outcome :=
  namespace_create_error_swallowed namespaceForbiddenEnv forbiddenErr (by decide)

/-- C3 as stated fails: a refused create (reason 'Forbidden', not
'AlreadyExists') is logged and swallowed too, so swallowing is not equivalent to
the failure being namespace-already-exists. -/
theorem namespace_create_swallow_not_only_already_exists :
    ¬ ∀ (e : Env) (err : Err),
        Event.call (.createNamespace newNs) (some err) ∈ (main e).trace →
        (Swallowed e err ↔ err.isAlreadyExists = true) := by
  intro hall
  have hmem : Event.call (.createNamespace newNs) (some forbiddenErr)
      ∈ (main namespaceForbiddenEnv).trace := by decide
  have hsw : Swallowed namespaceForbiddenEnv forbiddenErr := by
    obtain ⟨pre, nss, h1, h2, h3⟩ := namespaceCreate_error_shape _ _ hmem
    exact ⟨pre, _, h1, h2, h3⟩
  have := (hall namespaceForbiddenEnv forbiddenErr hmem).mp hsw
  simp [Err.isAlreadyExists, forbiddenErr] at this

/-- C4 on a run of the code: when the pod delete of line 101 returns an error
and every other call succeeds, the error is neither fatal nor logged: the call
is in the trace with its error, later external calls follow it (the informer
factory is started), nothing is handed to the logger and the run ends blocked in
the receive.  So the namespace create is not the only call of `main` whose error
is ignored.  The same holds for an error of `AddEventHandler` in line 115, whose
results are dropped as well. -/
theorem pod_delete_error_ignored :
    Event.call (.deletePod "conrad-aerospike" "hello-world") (some timeoutErr)
        ∈ (main podDeleteFailsEnv).trace
    ∧ (main podDeleteFailsEnv).ignores (.deletePod "conrad-aerospike" "hello-world") timeoutErr
    ∧ logged (main podDeleteFailsEnv).trace = []
    ∧ (main podDeleteFailsEnv).outcome = .blocked
    ∧ (main handlerFailsEnv).ignores .addEventHandler timeoutErr
    ∧ logged (main handlerFailsEnv).trace = []
    ∧ (main handlerFailsEnv).outcome = .blocked
    ∧ ¬ ∀ (e : Env) (a : Action) (err : Err), Event.call a (some err) ∈ (main e).trace →
        ((main e).ignores a err ↔ a = .createNamespace newNs) := by
  have hig : (main podDeleteFailsEnv).ignores (.deletePod "conrad-aerospike" "hello-world")
      timeoutErr :=
    ⟨(main podDeleteFailsEnv).trace.take 19, (main podDeleteFailsEnv).trace.drop 20, .goStart,
      none, by decide, by decide, rfl⟩
  have hig' : (main handlerFailsEnv).ignores .addEventHandler timeoutErr :=
    ⟨(main handlerFailsEnv).trace.take 27, (main handlerFailsEnv).trace.drop 28, .listSecrets,
      none, by decide, by decide, rfl⟩
  refine ⟨by decide, hig, by decide, by decide, hig', by decide, by decide, ?_⟩
  intro hall
  have := (hall podDeleteFailsEnv _ timeoutErr (by decide)).mp hig
  cases this

theorem podListLoop_ok (e : Env) (pods : Nat → String → List Pod)
    (hpods : ∀ i ns, e.listPods i ns = .ok (pods i ns)) (nss : List Namespace) (i : Nat) :
    podListLoop e i nss =
      ((nss.enumFrom i).flatMap (fun p =>
          Event.call (.listPods p.2.ObjectMeta.Name labelSelector) none
            :: (pods p.1 p.2.ObjectMeta.Name).map
                (fun pod => Event.print (podLine p.2.ObjectMeta.Name pod))), none) := by
  induction nss generalizing i with
  | nil => rfl
  | cons ns rest ih =>
    simp only [podListLoop, hpods, ih, List.enumFrom_cons, List.flatMap_cons, List.cons_append]

theorem actions_loop_events (pods : Nat → String → List Pod) (nss : List Namespace) (i : Nat) :
    actions ((nss.enumFrom i).flatMap (fun p =>
        Event.call (.listPods p.2.ObjectMeta.Name labelSelector) none
          :: (pods p.1 p.2.ObjectMeta.Name).map
              (fun pod => Event.print (podLine p.2.ObjectMeta.Name pod))))
      = nss.map (fun ns => .listPods ns.ObjectMeta.Name labelSelector) := by
  induction nss generalizing i with
  | nil => rfl
  | cons ns rest ih => simp [List.enumFrom_cons, List.flatMap_cons, ih]

theorem printed_loop_events (pods : Nat → String → List Pod) (nss : List Namespace) (i : Nat) :
    printed ((nss.enumFrom i).flatMap (fun p =>
        Event.call (.listPods p.2.ObjectMeta.Name labelSelector) none
          :: (pods p.1 p.2.ObjectMeta.Name).map
              (fun pod => Event.print (podLine p.2.ObjectMeta.Name pod))))
      = (nss.enumFrom i).flatMap (fun p =>
          (pods p.1 p.2.ObjectMeta.Name).map (fun pod => podLine p.2.ObjectMeta.Name pod)) := by
  induction nss generalizing i with
  | nil => rfl
  | cons ns rest ih =>
    have hmap : ∀ l : List Pod, List.filterMap (fun ev => match ev with
        | Event.print s => some s
        | _ => none) (l.map (fun pod => Event.print (podLine ns.ObjectMeta.Name pod)))
        = l.map (fun pod => podLine ns.ObjectMeta.Name pod) := by
      intro l
      induction l with
      | nil => rfl
      | cons x xs ihx => simp [ihx]
    unfold printed at ih ⊢
    simp [List.enumFrom_cons, List.flatMap_cons, ih, hmap]

theorem no_listPods_sleepDeleteStage (e : Env) :
    (actions (sleepDeleteStage e).trace).filter Action.isListPods = [] := by
  rw [List.filter_eq_nil_iff]
  intro a ha hl
  have hsub : a ∈ bodyActions (sleepDeleteStage e).trace := by
    unfold bodyActions
    rw [List.mem_filter]
    refine ⟨ha, ?_⟩
    cases a <;> first | rfl | cases hl
  have := (sleepDeleteStage_follows e).subset hsub
  simp [sleepDeletePath, informerPath] at this
  rcases this with rfl | rfl | rfl | rfl | rfl | rfl | rfl | rfl | rfl | rfl <;> cases hl

/-- Shape of a run that gets through the pod lists of step 5. -/
theorem podList_shape (e : Env) (nss : List Namespace) (pods : Nat → String → List Pod)
    (hb : e.buildConfig = none) (hc : e.newForConfig = none) (hl : e.listNamespaces = .ok nss)
    (hp : e.createPod = none) (hpods : ∀ i ns, e.listPods i ns = .ok (pods i ns)) :
    ∃ pre, (main e).trace
        = pre ++ [ .call (.createPod nsName helloworldPod) none,
            .print "5. print out pod names and the namespace they are in for any pods that have a label of 'k8s-app=kube-dns'\n",
            .print "formatting as namespace/pod-name\n" ]
          ++ (nss.enum.flatMap (fun p =>
              Event.call (.listPods p.2.ObjectMeta.Name labelSelector) none
                :: (pods p.1 p.2.ObjectMeta.Name).map
                    (fun pod => Event.print (podLine p.2.ObjectMeta.Name pod))))
          ++ (sleepDeleteStage e).trace
      ∧ actions pre = [.buildConfig "" "/Users/conradhanson/.kube/config2", .newForConfig,
          .listNamespaces, .createNamespace newNs] := by
  have hstage : (podCreateStage e nss).trace =
      [ .print ("4. Creating a pod running a hello-world container in the '" ++ nsName
            ++ "' namespace\n"),
        .call (.createPod nsName helloworldPod) none,
        .print "5. print out pod names and the namespace they are in for any pods that have a label of 'k8s-app=kube-dns'\n",
        .print "formatting as namespace/pod-name\n" ]
      ++ (nss.enum.flatMap (fun p =>
          Event.call (.listPods p.2.ObjectMeta.Name labelSelector) none
            :: (pods p.1 p.2.ObjectMeta.Name).map
                (fun pod => Event.print (podLine p.2.ObjectMeta.Name pod))))
      ++ (sleepDeleteStage e).trace := by
    simp [podCreateStage, hp, podListStage, podListLoop_ok e pods hpods, Run.after, List.enum]
  rw [main_of_listed e nss hb hc hl]
  cases hn : e.createNamespace with
  | none =>
    rw [namespaceCreateStage_of_none e nss hn]
    refine ⟨[ .print "1. Connecting to k8s cluster\n",
        .call (.buildConfig "" "/Users/conradhanson/.kube/config2") none,
        .call .newForConfig none, .call .listNamespaces none,
        .print "2. Current Namespaces\n" ]
        ++ nss.map (fun ns => .print (ns.ObjectMeta.Name ++ "\n"))
        ++ [ .print ("3. creating a namespace called '" ++ nsName ++ "'\n"),
          .call (.createNamespace newNs) none,
          .print ("4. Creating a pod running a hello-world container in the '" ++ nsName
            ++ "' namespace\n") ], ?_, ?_⟩
    · simp [Run.after, hstage]
    · simp
  | some err =>
    rw [namespaceCreateStage_of_some e nss err hn]
    refine ⟨[ .print "1. Connecting to k8s cluster\n",
        .call (.buildConfig "" "/Users/conradhanson/.kube/config2") none,
        .call .newForConfig none, .call .listNamespaces none,
        .print "2. Current Namespaces\n" ]
        ++ nss.map (fun ns => .print (ns.ObjectMeta.Name ++ "\n"))
        ++ [ .print ("3. creating a namespace called '" ++ nsName ++ "'\n"),
          .call (.createNamespace newNs) (some err), .log err,
          .print ("4. Creating a pod running a hello-world container in the '" ++ nsName
            ++ "' namespace\n") ], ?_, ?_⟩
    · simp [Run.after, hstage]
    · simp

/-- C6: when the run gets to step 5 and every pod list answers (list `i`, for
namespace `ns`, with `pods i ns`), the two header lines are followed by one pod
list per namespace of the listing of step 2, in listing order, each with label
selector 'k8s-app=kube-dns' and each followed by one line '-> ns/pod' per
returned pod in returned order, and then by the sleep; these are all the pod
lists of the run, whatever the namespace create of step 3 answered, so a
namespace that is not in the listing is never queried. -/
theorem pod_list_step (e : Env) (nss : List Namespace) (pods : Nat → String → List Pod)
    (hb : e.buildConfig = none) (hc : e.newForConfig = none) (hl : e.listNamespaces = .ok nss)
    (hp : e.createPod = none) (hpods : ∀ i ns, e.listPods i ns = .ok (pods i ns)) :
    (∃ pre, (main e).trace
        = pre ++ [ .call (.createPod "conrad-aerospike" helloworldPod) none,
            .print "5. print out pod names and the namespace they are in for any pods that have a label of 'k8s-app=kube-dns'\n",
            .print "formatting as namespace/pod-name\n" ]
          ++ (nss.enum.flatMap (fun p =>
              Event.call (.listPods p.2.ObjectMeta.Name "k8s-app=kube-dns") none
                :: (pods p.1 p.2.ObjectMeta.Name).map (fun pod =>
                    Event.print ("-> " ++ p.2.ObjectMeta.Name ++ "/" ++ pod.ObjectMeta.Name ++ "\n"))))
          ++ (sleepDeleteStage e).trace
      ∧ actions pre = [.buildConfig "" "/Users/conradhanson/.kube/config2", .newForConfig,
          .listNamespaces, .createNamespace newNs])
    ∧ (actions (main e).trace).filter Action.isListPods
        = nss.map (fun ns => .listPods ns.ObjectMeta.Name "k8s-app=kube-dns")
    ∧ printed (nss.enum.flatMap (fun p =>
          Event.call (.listPods p.2.ObjectMeta.Name "k8s-app=kube-dns") none
            :: (pods p.1 p.2.ObjectMeta.Name).map (fun pod =>
                Event.print ("-> " ++ p.2.ObjectMeta.Name ++ "/" ++ pod.ObjectMeta.Name ++ "\n"))))
        = nss.enum.flatMap (fun p => (pods p.1 p.2.ObjectMeta.Name).map (fun pod =>
            "-> " ++ p.2.ObjectMeta.Name ++ "/" ++ pod.ObjectMeta.Name ++ "\n"))
    ∧ ((∀ ns ∈ nss, ns.ObjectMeta.Name ≠ "conrad-aerospike") →
        ∀ sel r, Event.call (.listPods "conrad-aerospike" sel) r ∉ (main e).trace) := by
  obtain ⟨pre, htr, hpre⟩ := podList_shape e nss pods hb hc hl hp hpods
  have hcalls : (actions (main e).trace).filter Action.isListPods
      = nss.map (fun ns => .listPods ns.ObjectMeta.Name labelSelector) := by
    have hmap : (nss.map (fun ns => Action.listPods ns.ObjectMeta.Name labelSelector)).filter
        Action.isListPods = nss.map (fun ns => Action.listPods ns.ObjectMeta.Name labelSelector) := by
      rw [List.filter_eq_self]
      intro a ha
      simp at ha
      obtain ⟨ns, _, rfl⟩ := ha
      rfl
    rw [htr]
    simp only [actions_append, List.filter_append, hpre, List.enum, actions_loop_events,
      no_listPods_sleepDeleteStage, hmap]
    simp [Action.isListPods]
  refine ⟨⟨pre, htr, hpre⟩, hcalls, printed_loop_events pods nss 0, ?_⟩
  intro hnot sel r hmem
  have hin : Action.listPods "conrad-aerospike" sel
      ∈ (actions (main e).trace).filter Action.isListPods := by
    rw [List.mem_filter]
    exact ⟨mem_actions hmem, rfl⟩
  rw [hcalls] at hin
  simp at hin
  obtain ⟨ns, hns, hname, _⟩ := hin
  exact hnot ns hns hname

/-- Witness of C6 on the sample oracle in which every call succeeds. -/
theorem pod_list_step_witness :
    (actions (main okEnv).trace).filter Action.isListPods
        = [.listPods "default" "k8s-app=kube-dns", .listPods "kube-system" "k8s-app=kube-dns"]
    ∧ printed (sampleNamespaces.enum.flatMap (fun p =>
          Event.call (.listPods p.2.ObjectMeta.Name "k8s-app=kube-dns") none
            :: (samplePods p.1 p.2.ObjectMeta.Name).map (fun pod =>
                Event.print ("-> " ++ p.2.ObjectMeta.Name ++ "/" ++ pod.ObjectMeta.Name ++ "\n"))))
        = sampleNamespaces.enum.flatMap (fun p => (samplePods p.1 p.2.ObjectMeta.Name).map
            (fun pod => "-> " ++ p.2.ObjectMeta.Name ++ "/" ++ pod.ObjectMeta.Name ++ "\n"))
    ∧ ((∀ ns ∈ sampleNamespaces, ns.ObjectMeta.Name ≠ "conrad-aerospike") →
        ∀ sel r, Event.call (.listPods "conrad-aerospike" sel) r ∉ (main okEnv).trace) :=
  (pod_list_step okEnv sampleNamespaces samplePods rfl rfl rfl rfl (fun _ _ => rfl)).2

theorem listedOr_spec (e : Env) :
    ∀ nss, e.listNamespaces = .ok nss →
      (match e.listNamespaces with | .ok n => n | .error _ => []) = nss := by
  intro nss hl
  simp [hl]

theorem mem_mainPath_of_call (e : Env) {a : Action} {res : Option Err}
    (h : Event.call a res ∈ (main e).trace) (hc : a.isDeferredClose = false) :
    ∃ nss, a ∈ mainPath nss :=
  ⟨_, mem_path_of_follows (main_follows e _ (listedOr_spec e)) h hc⟩

theorem createPod_before_delete (e : Env) (ns name : String) (r : Option Err)
    (h : Event.call (.deletePod ns name) r ∈ (main e).trace) :
    Event.call (.createPod nsName helloworldPod) none ∈ (main e).trace := by
  cases hb : e.buildConfig with
  | some err => simp [main, hb, Run.after] at h
  | none =>
    cases hc : e.newForConfig with
    | some err => simp [main, hb, hc, Run.after] at h
    | none =>
      cases hl : e.listNamespaces with
      | error err => simp [main, hb, hc, hl, Run.after] at h
      | ok nss =>
        rw [main_of_listed e nss hb hc hl] at h ⊢
        cases hp : e.createPod with
        | some err =>
          cases hn : e.createNamespace <;>
            simp [namespaceCreateStage, podCreateStage, hn, hp, Run.after] at h
        | none =>
          cases hn : e.createNamespace <;>
            simp [namespaceCreateStage, podCreateStage, hn, hp, Run.after]

theorem filter_actions_informerStage (e : Env) (p : Action → Bool)
    (hp : ∀ a ∈ informerPath, p a = false) (hc : p .closeStopCh = false) :
    (actions (informerStage e).trace).filter p = [] := by
  rw [List.filter_eq_nil_iff]
  intro a ha
  cases hd : a.isDeferredClose with
  | true =>
    cases a <;> first | (simp [Action.isDeferredClose] at hd; done) | simp [hc]
  | false =>
    have hsub : a ∈ bodyActions (informerStage e).trace := by
      unfold bodyActions
      rw [List.mem_filter]
      exact ⟨ha, by simp [hd]⟩
    simp [hp a ((informerStage_follows e).subset hsub)]

theorem sleepDeleteStage_trace (e : Env) :
    (sleepDeleteStage e).trace =
      [ .print "sleeping for 30 seconds\n",
        .call (.sleep sleepDuration) none,
        .print "6. delete the hello-world pod created from above\n",
        .call (.deletePod nsName "hello-world") e.deletePod ]
      ++ (informerStage e).trace := rfl

/-- The calls selected by `p` in a run that gets through the pod lists, when
`p` selects no pod list and no call of the informer stage. -/
theorem filter_actions_of_reached (e : Env) (nss : List Namespace)
    (pods : Nat → String → List Pod)
    (hb : e.buildConfig = none) (hc : e.newForConfig = none) (hl : e.listNamespaces = .ok nss)
    (hp : e.createPod = none) (hpods : ∀ i ns, e.listPods i ns = .ok (pods i ns))
    (p : Action → Bool) (hlist : ∀ ns sel, p (.listPods ns sel) = false)
    (hinf : ∀ a ∈ informerPath, p a = false) (hclose : p .closeStopCh = false) :
    (actions (main e).trace).filter p =
      ([Action.buildConfig "" "/Users/conradhanson/.kube/config2", Action.newForConfig,
          Action.listNamespaces, Action.createNamespace newNs]
        ++ [Action.createPod nsName helloworldPod]
        ++ [Action.sleep sleepDuration, Action.deletePod nsName "hello-world"]).filter p := by
  obtain ⟨pre, htr, hpre⟩ := podList_shape e nss pods hb hc hl hp hpods
  have hmap : (nss.map (fun ns => Action.listPods ns.ObjectMeta.Name labelSelector)).filter p
      = [] := by
    rw [List.filter_eq_nil_iff]
    intro a ha
    simp at ha
    obtain ⟨ns, _, rfl⟩ := ha
    simp [hlist]
  have hact : actions (main e).trace =
      [Action.buildConfig "" "/Users/conradhanson/.kube/config2", Action.newForConfig,
          Action.listNamespaces, Action.createNamespace newNs]
        ++ [Action.createPod nsName helloworldPod]
        ++ nss.map (fun ns => Action.listPods ns.ObjectMeta.Name labelSelector)
        ++ [Action.sleep sleepDuration, Action.deletePod nsName "hello-world"]
        ++ actions (informerStage e).trace := by
    rw [htr, sleepDeleteStage_trace]
    simp only [actions_append, hpre, List.enum, actions_loop_events, actions_call, actions_print,
      actions_nil]
    simp only [List.append_assoc, List.cons_append, List.nil_append]
  rw [hact]
  simp only [List.filter_append, hmap, filter_actions_informerStage e p hinf hclose,
    List.append_nil]

/-- Shape of a run that gets through the pod lists: the create, the sleep and
the delete, in this order. -/
theorem reached_shape (e : Env) (nss : List Namespace) (pods : Nat → String → List Pod)
    (hb : e.buildConfig = none) (hc : e.newForConfig = none) (hl : e.listNamespaces = .ok nss)
    (hp : e.createPod = none) (hpods : ∀ i ns, e.listPods i ns = .ok (pods i ns)) :
    ∃ pre mid post, (main e).trace =
      pre ++ .call (.createPod nsName helloworldPod) none :: mid
        ++ [ .print "sleeping for 30 seconds\n",
             .call (.sleep sleepDuration) none,
             .print "6. delete the hello-world pod created from above\n",
             .call (.deletePod nsName "hello-world") e.deletePod ]
        ++ post := by
  obtain ⟨pre, htr, _⟩ := podList_shape e nss pods hb hc hl hp hpods
  refine ⟨pre,
    [ .print "5. print out pod names and the namespace they are in for any pods that have a label of 'k8s-app=kube-dns'\n",
      .print "formatting as namespace/pod-name\n" ]
    ++ (nss.enum.flatMap (fun p =>
          Event.call (.listPods p.2.ObjectMeta.Name labelSelector) none
            :: (pods p.1 p.2.ObjectMeta.Name).map
                (fun pod => Event.print (podLine p.2.ObjectMeta.Name pod)))),
    (informerStage e).trace, ?_⟩
  rw [htr, sleepDeleteStage_trace]
  simp only [List.append_assoc, List.cons_append, List.nil_append]

/-- C7: every pod create of a run is addressed to namespace 'conrad-aerospike'
with a pod object named 'hello-world' whose Namespace field is that namespace;
every pod delete of a run is addressed to the same pair ('conrad-aerospike',
'hello-world'), and comes in a run in which the create of that pod returned no
error; and a run that gets through the pod lists of step 5 makes exactly one pod
create and, after it, exactly one pod delete, of that pod. -/
theorem delete_targets_created_pod (e : Env) :
    (∀ ns pod r, Event.call (.createPod ns pod) r ∈ (main e).trace →
        ns = "conrad-aerospike" ∧ pod.ObjectMeta.Name = "hello-world"
          ∧ pod.ObjectMeta.Namespace = ns)
    ∧ (∀ ns name r, Event.call (.deletePod ns name) r ∈ (main e).trace →
        (ns, name) = ("conrad-aerospike", "hello-world")
          ∧ ∃ pod, Event.call (.createPod ns pod) none ∈ (main e).trace
              ∧ pod.ObjectMeta.Name = name ∧ pod.ObjectMeta.Namespace = ns)
    ∧ (∀ (nss : List Namespace) (pods : Nat → String → List Pod),
        e.buildConfig = none → e.newForConfig = none → e.listNamespaces = .ok nss →
        e.createPod = none → (∀ i ns, e.listPods i ns = .ok (pods i ns)) →
        ∃ pod, pod.ObjectMeta.Name = "hello-world"
          ∧ pod.ObjectMeta.Namespace = "conrad-aerospike"
          ∧ (actions (main e).trace).filter Action.isPodCreate
              = [.createPod "conrad-aerospike" pod]
          ∧ (actions (main e).trace).filter Action.isPodDelete
              = [.deletePod "conrad-aerospike" "hello-world"]
          ∧ ∃ pre mid post, (main e).trace =
              pre ++ .call (.createPod "conrad-aerospike" pod) none :: mid
                ++ .call (.deletePod "conrad-aerospike" "hello-world") e.deletePod :: post) := by
  refine ⟨?_, ?_, ?_⟩
  · intro ns pod r h
    obtain ⟨nss, hmem⟩ := mem_mainPath_of_call e h rfl
    simp [mainPath, namespaceCreatePath, podCreatePath, podListPath, sleepDeletePath,
      informerPath] at hmem
    obtain ⟨rfl, rfl⟩ := hmem
    exact ⟨rfl, rfl, rfl⟩
  · intro ns name r h
    obtain ⟨nss, hmem⟩ := mem_mainPath_of_call e h rfl
    simp [mainPath, namespaceCreatePath, podCreatePath, podListPath, sleepDeletePath,
      informerPath] at hmem
    obtain ⟨rfl, rfl⟩ := hmem
    exact ⟨rfl, helloworldPod, createPod_before_delete e _ _ r h, rfl, rfl⟩
  · intro nss pods hb hc hl hp hpods
    refine ⟨helloworldPod, rfl, rfl, ?_, ?_, ?_⟩
    · rw [filter_actions_of_reached e nss pods hb hc hl hp hpods Action.isPodCreate
        (fun _ _ => rfl) (by decide) rfl]
      rfl
    · rw [filter_actions_of_reached e nss pods hb hc hl hp hpods Action.isPodDelete
        (fun _ _ => rfl) (by decide) rfl]
      rfl
    · obtain ⟨pre, mid, post, htr⟩ := reached_shape e nss pods hb hc hl hp hpods
      refine ⟨pre, mid ++ [ .print "sleeping for 30 seconds\n",
        .call (.sleep sleepDuration) none,
        .print "6. delete the hello-world pod created from above\n" ], post, ?_⟩
      rw [htr]
      simp only [List.append_assoc, List.cons_append, List.nil_append]
      rfl

/-- Witness of C7 on the sample oracle in which every call succeeds. -/
theorem delete_targets_created_pod_witness :
    ∃ pod, pod.ObjectMeta.Name = "hello-world"
      ∧ pod.ObjectMeta.Namespace = "conrad-aerospike"
      ∧ (actions (main okEnv).trace).filter Action.isPodCreate
          = [.createPod "conrad-aerospike" pod]
      ∧ (actions (main okEnv).trace).filter Action.isPodDelete
          = [.deletePod "conrad-aerospike" "hello-world"]
      ∧ ∃ pre mid post, (main okEnv).trace =
          pre ++ .call (.createPod "conrad-aerospike" pod) none :: mid
            ++ .call (.deletePod "conrad-aerospike" "hello-world") okEnv.deletePod :: post :=
  (delete_targets_created_pod okEnv).2.2 sampleNamespaces samplePods rfl rfl rfl rfl
    (fun _ _ => rfl)

theorem filter_isSleep_mainPath (nss : List Namespace) :
    (mainPath nss).filter Action.isSleep = [.sleep sleepDuration] := by
  have hmap : (nss.map (fun ns => Action.listPods ns.ObjectMeta.Name labelSelector)).filter
      Action.isSleep = [] := by
    rw [List.filter_eq_nil_iff]
    intro a ha
    simp at ha
    obtain ⟨ns, _, rfl⟩ := ha
    simp [Action.isSleep]
  simp [mainPath, namespaceCreatePath, podCreatePath, podListPath, sleepDeletePath, informerPath,
    List.filter_cons, List.filter_append, hmap, Action.isSleep]

/-- C8: the duration handed to the sleep is `time.Duration(30000000000)`, that
is 30 * 10^9 nanoseconds; the constant lies in the range of a signed 64-bit
integer, so the conversion does not wrap; every sleep of a run has that duration
and a run sleeps at most once; and a run that gets through the pod lists of
step 5 sleeps exactly once, for that duration, between the line 'sleeping for 30
seconds' and the line of step 6. -/
theorem sleep_thirty_seconds (e : Env) :
    sleepDuration = 30 * 10 ^ 9
    ∧ toInt64 30000000000 = 30000000000
    ∧ (-(2 : Int) ^ 63 ≤ 30000000000 ∧ (30000000000 : Int) < 2 ^ 63)
    ∧ (∀ d r, Event.call (.sleep d) r ∈ (main e).trace → d = 30000000000)
    ∧ ((actions (main e).trace).filter Action.isSleep).length ≤ 1
    ∧ (∀ (nss : List Namespace) (pods : Nat → String → List Pod),
        e.buildConfig = none → e.newForConfig = none → e.listNamespaces = .ok nss →
        e.createPod = none → (∀ i ns, e.listPods i ns = .ok (pods i ns)) →
        (actions (main e).trace).filter Action.isSleep = [.sleep 30000000000]
          ∧ ∃ pre post, (main e).trace =
              pre ++ [ .print "sleeping for 30 seconds\n",
                       .call (.sleep 30000000000) none,
                       .print "6. delete the hello-world pod created from above\n" ]
                ++ post) := by
  refine ⟨by decide, by decide, by decide, ?_, ?_, ?_⟩
  · intro d r h
    obtain ⟨nss, hmem⟩ := mem_mainPath_of_call e h rfl
    simp [mainPath, namespaceCreatePath, podCreatePath, podListPath, sleepDeletePath,
      informerPath] at hmem
    rw [hmem]
    decide
  · have hfol := main_follows e _ (listedOr_spec e)
    have hpre : (bodyActions (main e).trace).filter Action.isSleep
        <+: (mainPath _).filter Action.isSleep := List.IsPrefix.filter _ hfol
    have hbody : (bodyActions (main e).trace).filter Action.isSleep
        = (actions (main e).trace).filter Action.isSleep := by
      unfold bodyActions
      rw [List.filter_filter]
      apply List.filter_congr
      intro a _
      cases a <;> rfl
    rw [hbody, filter_isSleep_mainPath] at hpre
    simpa using hpre.length_le
  · intro nss pods hb hc hl hp hpods
    constructor
    · rw [filter_actions_of_reached e nss pods hb hc hl hp hpods Action.isSleep
        (fun _ _ => rfl) (by decide) rfl, ← sleepDuration_eq]
      rfl
    · obtain ⟨pre, mid, post, htr⟩ := reached_shape e nss pods hb hc hl hp hpods
      refine ⟨pre ++ .call (.createPod nsName helloworldPod) none :: mid,
        .call (.deletePod nsName "hello-world") e.deletePod :: post, ?_⟩
      rw [htr, ← sleepDuration_eq]
      simp only [List.append_assoc, List.cons_append, List.nil_append]

/-- Witness of C8 on the sample oracle in which every call succeeds. -/
theorem sleep_thirty_seconds_witness :
    (actions (main okEnv).trace).filter Action.isSleep = [.sleep 30000000000]
      ∧ ∃ pre post, (main okEnv).trace =
          pre ++ [ .print "sleeping for 30 seconds\n",
                   .call (.sleep 30000000000) none,
                   .print "6. delete the hello-world pod created from above\n" ]
            ++ post :=
  (sleep_thirty_seconds okEnv).2.2.2.2.2 sampleNamespaces samplePods rfl rfl rfl rfl
    (fun _ _ => rfl)

/-- C10: for a delivered Secret the type assertions of the on-add and the
on-delete handler succeed and the handler writes exactly one line, 'add event
received for ns/name' or 'delete event received for ns/name', from the
namespace and the name of that Secret; for a delivered object that is no Secret
(a deleted-final-state-unknown tombstone among them) the handler panics and
writes nothing; the on-update handler writes one line for every pair of objects
and does not panic. -/
theorem handlers_print (fmtV : Obj → String) :
    (∀ s : Secret, AddFunc (.secret (some s)) =
        .ok ["add event received for " ++ s.ObjectMeta.Namespace ++ "/" ++ s.ObjectMeta.Name ++ "\n"])
    ∧ (∀ s : Secret, DeleteFunc (.secret (some s)) =
        .ok ["delete event received for " ++ s.ObjectMeta.Namespace ++ "/" ++ s.ObjectMeta.Name
          ++ "\n"])
    ∧ (∀ obj : Obj, (∀ s, obj ≠ .secret (some s)) →
        (∃ p, AddFunc obj = .error p) ∧ (∃ p, DeleteFunc obj = .error p))
    ∧ (∀ key last, AddFunc (.deletedFinalStateUnknown key last) = .error .typeAssertion
        ∧ DeleteFunc (.deletedFinalStateUnknown key last) = .error .typeAssertion)
    ∧ (∀ old new : Obj, UpdateFunc fmtV old new =
        .ok ["update event received, old : " ++ fmtV old ++ ", new " ++ fmtV new ++ "\n"]) := by
  refine ⟨fun s => rfl, fun s => rfl, ?_, fun key last => ⟨rfl, rfl⟩, fun old new => rfl⟩
  intro obj hobj
  cases obj with
  | secret p =>
    cases p with
    | none => exact ⟨⟨_, rfl⟩, ⟨_, rfl⟩⟩
    | some s => exact absurd rfl (hobj s)
  | deletedFinalStateUnknown key last => exact ⟨⟨_, rfl⟩, ⟨_, rfl⟩⟩
  | nil => exact ⟨⟨_, rfl⟩, ⟨_, rfl⟩⟩
  | other name => exact ⟨⟨_, rfl⟩, ⟨_, rfl⟩⟩

theorem inv_init : Sys.init.inv = true := rfl

theorem inv_step (s : Sys) (h : s.inv = true) : ∀ x ∈ s.steps, x.2.inv = true := by
  obtain ⟨pc, chan, d, sp, ss, rg, sr, si⟩ := s
  cases pc <;> simp [Sys.inv] at h <;>
    first
      | (obtain ⟨⟨⟨rfl, rfl⟩, rfl⟩, rfl⟩ := h; cases rg <;> cases sr <;> cases si <;> decide)
      | (obtain ⟨⟨rfl, rfl⟩, rfl⟩ := h
         cases ss <;> cases rg <;> cases sr <;> cases si <;> decide)

theorem inv_of_reachable {s : Sys} (h : Reachable s) : s.inv = true := by
  induction h with
  | init => exact inv_init
  | step _ hs ih => exact inv_step _ ih _ hs

theorem inv_facts (s : Sys) (h : s.inv = true) :
    (s.pc ≠ .returning ∧ s.pc ≠ .returned)
    ∧ (s.pc = .line137 → s.chan = .opened ∧ s.stopSeen = false
        ∧ ∀ x ∈ s.steps, x.1 ≠ .recv ∧ x.1 ≠ .close ∧ x.1 ≠ .send ∧ x.2.pc = .line137)
    ∧ (∀ x ∈ s.steps, x.1 ≠ .send ∧ x.1 ≠ .recv
        ∧ (x.1 = .close → s.deferred = true ∧ s.pc = .panicking)
        ∧ (s.onTheWay = false → x.2.onTheWay = false)
        ∧ (s.onTheWay = true → x.1 ≠ .close)) := by
  obtain ⟨pc, chan, d, sp, ss, rg, sr, si⟩ := s
  cases pc <;> simp [Sys.inv] at h <;>
    first
      | (obtain ⟨⟨⟨rfl, rfl⟩, rfl⟩, rfl⟩ := h; cases rg <;> cases sr <;> cases si <;> decide)
      | (obtain ⟨⟨rfl, rfl⟩, rfl⟩ := h
         cases ss <;> cases rg <;> cases sr <;> cases si <;> decide)

theorem reachable_of_reaches {s t : Sys} (hs : Reachable s) (h : Reaches s t) : Reachable t := by
  induction h with
  | refl => exact hs
  | step _ hstep ih => exact Reachable.step ih hstep

theorem stays_in_receive {s t : Sys} (hs : Reachable s) (hpc : s.pc = .line137)
    (h : Reaches s t) : t.pc = .line137 := by
  induction h with
  | refl => exact hpc
  | step hreach hstep ih =>
    have hinv := inv_of_reachable (reachable_of_reaches hs hreach)
    exact (((inv_facts _ hinv).2.1 ih).2.2 _ hstep).2.2.2

theorem onTheWay_of_reaches {s t : Sys} (hs : Reachable s) (h : Reaches s t)
    (ht : t.onTheWay = true) : s.onTheWay = true := by
  induction h with
  | refl => exact ht
  | step hreach hstep ih =>
    apply ih
    have hinv := inv_of_reachable (reachable_of_reaches hs hreach)
    cases hw : Sys.onTheWay _ with
    | true => rfl
    | false =>
      have := ((inv_facts _ hinv).2.2 _ hstep).2.2.2.1 hw
      rw [this] at ht
      cases ht

theorem line115_reachable :
    Reachable ⟨.line115, .opened, true, true, false, false, false, false⟩ := by
  have h1 : Reachable ⟨.line112, .opened, false, false, false, false, false, false⟩ :=
    @Reachable.step _ .make _ Reachable.init (by decide)
  have h2 : Reachable ⟨.line113, .opened, true, false, false, false, false, false⟩ :=
    @Reachable.step _ .deferClose _ h1 (by decide)
  exact @Reachable.step _ .spawn _ h2 (by decide)

theorem line137_reachable :
    Reachable ⟨.line137, .opened, true, true, false, true, false, false⟩ := by
  have h4 : Reachable ⟨.line128, .opened, true, true, false, true, false, false⟩ :=
    @Reachable.step _ .addEventHandler _ line115_reachable (by decide)
  have h5 : Reachable ⟨.line133, .opened, true, true, false, true, false, false⟩ :=
    @Reachable.step _ .listOk _ h4 (by decide)
  exact @Reachable.step _ .printSecrets _ h5 (by decide)

theorem start_first_reachable :
    Reachable ⟨.line115, .opened, true, true, false, false, true, false⟩ :=
  @Reachable.step _ .backgroundStart _ line115_reachable (by decide)

theorem start_first_line137_reachable :
    Reachable ⟨.line137, .opened, true, true, false, true, true, false⟩ := by
  have h4 : Reachable ⟨.line128, .opened, true, true, false, true, true, false⟩ :=
    @Reachable.step _ .addEventHandler _ start_first_reachable (by decide)
  have h5 : Reachable ⟨.line133, .opened, true, true, false, true, true, false⟩ :=
    @Reachable.step _ .listOk _ h4 (by decide)
  exact @Reachable.step _ .printSecrets _ h5 (by decide)

/-- C5: the receive of line 137 is reached; `main` never gets past it and
never returns; from a state in which `main` stands in the receive the program
only gets to states in which `main` still stands in it, the channel is open, the
background goroutine has received no stop signal, and no step of either
goroutine completes the receive, sends on the channel or closes it; in every
state of a run on its way to the receive no step sends on the channel or closes
it; no step of the program ever sends on the channel, and a step that closes it
is the deferred close. -/
theorem blocked_at_final_receive :
    (∃ s, Reachable s ∧ s.pc = .line137)
    ∧ (∀ s, Reachable s → s.pc ≠ .returning ∧ s.pc ≠ .returned)
    ∧ (∀ s, Reachable s → s.pc = .line137 → ∀ t, Reaches s t →
        t.pc = .line137 ∧ t.chan = .opened ∧ t.stopSeen = false
          ∧ ∀ x ∈ t.steps, x.1 ≠ .recv ∧ x.1 ≠ .close ∧ x.1 ≠ .send)
    ∧ (∀ s, Reachable s → ∀ t, Reaches s t → t.pc = .line137 →
        ∀ x ∈ s.steps, x.1 ≠ .close ∧ x.1 ≠ .send)
    ∧ (∀ s, Reachable s → ∀ x ∈ s.steps, x.1 ≠ .send ∧ (x.1 = .close → s.deferred = true)) := by
  refine ⟨⟨_, line137_reachable, rfl⟩, ?_, ?_, ?_, ?_⟩
  · intro s hs
    exact (inv_facts s (inv_of_reachable hs)).1
  · intro s hs hpc t ht
    have hpc' := stays_in_receive hs hpc ht
    have hf := (inv_facts t (inv_of_reachable (reachable_of_reaches hs ht))).2.1 hpc'
    exact ⟨hpc', hf.1, hf.2.1, fun x hx => ⟨(hf.2.2 x hx).1, (hf.2.2 x hx).2.1,
      (hf.2.2 x hx).2.2.1⟩⟩
  · intro s hs t ht hpc x hx
    have hway : s.onTheWay = true :=
      onTheWay_of_reaches hs ht (by simp [Sys.onTheWay, hpc])
    have hf := (inv_facts s (inv_of_reachable hs)).2.2 x hx
    exact ⟨hf.2.2.2.2 hway, hf.1⟩
  · intro s hs x hx
    have hf := (inv_facts s (inv_of_reachable hs)).2.2 x hx
    exact ⟨hf.1, fun hc => (hf.2.2.1 hc).1⟩

/-- C9 on a schedule of the code: after line 113 the goroutine can run `Start`
before the main goroutine executes line 115.  `Start` then runs while the
secrets informer is not registered with the factory and does not start it, and
the program still gets to the final receive, with the informer registered but
never started.  So it is not so that whenever `Start` runs the secrets informer
has already been registered. -/
theorem start_can_run_before_registration :
    (∃ s, Reachable s ∧ s.pc = .line115 ∧ s.registered = false
        ∧ (.backgroundStart, { s with startRan := true, startedInformer := false }) ∈ s.steps)
    ∧ (∃ s, Reachable s ∧ s.pc = .line137 ∧ s.registered = true ∧ s.startRan = true
        ∧ s.startedInformer = false)
    ∧ ¬ ∀ s, Reachable s → ∀ x ∈ s.steps, x.1 = .backgroundStart → s.registered = true := by
  refine ⟨⟨_, line115_reachable, rfl, rfl, by decide⟩,
    ⟨_, start_first_line137_reachable, rfl, rfl, rfl, rfl⟩, ?_⟩
  intro hall
  have := hall _ line115_reachable
    (.backgroundStart, ⟨.line115, .opened, true, true, false, false, true, false⟩)
    (by decide) rfl
  cases this

end K8sDemo
